import Mathlib

/-!
Shallow embedding of the vcard decode/encode core (crates vcard and
vcard_macro): logical-line assembly (reader.rs), content-line tokenizing and
property decoding (models/property.rs, models/parameter.rs), the alternative
representation containers (models/containers.rs), the card assembler
(reader.rs, parse_vcard) and the serializer (models/model.rs together with the
Display code generated by the vcard attribute macro in vcard_macro).

Bytes are modelled as characters (the streams of interest are ASCII); machine
integers (u8 preference ranks, u64 line limits) are modelled as Nat with the
parse functions enforcing the u8 range.
-/

deriving instance DecidableEq for Except

namespace VC

/-- Mirror of VCardError (errors.rs).  Only the variants reachable in the
embedded fragment are carried; the payloads follow the source fields.
The single I/O failure a pure byte-list source can produce is the unexpected
end of stream, hence one constructor for it.  panicAbort models the process
abort of the expect call in MultiAltIDContainer::add_value. -/
inductive VCardError where
  | ioUnexpectedEof : VCardError
  | parseIntError : VCardError
  | invalidLine (reason : String) (raw_line : String) : VCardError
  | invalidName (actual_name : String) (raw_line : String) : VCardError
  | unknownType (given_type : String) : VCardError
  | invalidPID (provided : String) : VCardError
  | invalidVersion (v : String) : VCardError
  | invalidGenderError (s : String) : VCardError
  | unknownParameter (s : String) : VCardError
  | maxLineLengthExceeded (max : Nat) : VCardError
  | invalidBeginProperty : VCardError
  | invalidVersionProperty : VCardError
  | invalidEndProperty : VCardError
  | invalidCardinality (expected : Nat) (property : String) : VCardError
  | invalidAltID (expected_altid : String) (actual_altid : String) : VCardError
  | invalidSyntax (property : String) (message : String) : VCardError
  | panicAbort : VCardError
deriving DecidableEq

/-- Rust u8::from_str: an optional leading plus sign, then one or more ASCII
digits, value at most 255. -/
def parseU8 (s : List Char) : Option Nat :=
  let t := match s with
    | '+' :: rest => rest
    | _ => s
  if t ≠ [] ∧ t.all Char.isDigit then
    let n := t.foldl (fun a c => a * 10 + (c.toNat - 48)) 0
    if n ≤ 255 then some n else none
  else none

/-- Rust str::to_lowercase, restricted to the ASCII mapping. -/
def lowerStr (s : String) : String := ⟨s.data.map Char.toLower⟩

/-- Rust str::starts_with for a literal pattern. -/
def starts_with (s p : String) : Bool := p.data.isPrefixOf s.data

/-- Rust str::split_once for a one-character pattern: split at the first
occurrence of the separator. -/
def splitOnce (sep : Char) : List Char → Option (List Char × List Char)
  | [] => none
  | c :: cs =>
    if c = sep then some ([], cs)
    else (splitOnce sep cs).map (fun p => (c :: p.1, p.2))

/-- Rust str::split for a one-character pattern: all parts, empty parts kept,
always at least one part. -/
def rustSplit (sep : Char) : List Char → List (List Char)
  | [] => [[]]
  | c :: cs =>
    if c = sep then [] :: rustSplit sep cs
    else match rustSplit sep cs with
      | [] => [[c]]
      | p :: ps => (c :: p) :: ps

/-- Rust str::trim_start_matches(";"): drop every leading semicolon. -/
def trimStartSemis : List Char → List Char
  | ';' :: cs => trimStartSemis cs
  | cs => cs

/-- Rust str::trim_end_matches("."): drop every trailing dot. -/
def trimEndDots (cs : List Char) : List Char :=
  (trimStartSemis [], (cs.reverse.dropWhile (· = '.')).reverse).2

/-- Rust str::trim_matches(char::from(0)): drop NUL characters from both
ends. -/
def trimNuls (cs : List Char) : List Char :=
  ((cs.dropWhile (· = '\x00')).reverse.dropWhile (· = '\x00')).reverse

/-- Mirror of ValueDataType (models/parameter.rs). -/
inductive ValueDataType where
  | uri | text | date | time | dateTime | dateAndOrTime | timestamp
  | boolean | integer | float | utcOffset | languageTag
  | proprietary (s : String)
deriving DecidableEq

/-- Serialization tokens of ValueDataType (the strum attributes / Display). -/
def ValueDataType.asStr : ValueDataType → String
  | .uri => "uri"
  | .text => "text"
  | .date => "date"
  | .time => "time"
  | .dateTime => "date-time"
  | .dateAndOrTime => "date-and-or-time"
  | .timestamp => "timestamp"
  | .boolean => "boolean"
  | .integer => "integer"
  | .float => "float"
  | .utcOffset => "utc-offset"
  | .languageTag => "language-tag"
  | .proprietary s => s

/-- Mirror of ValueDataType::from_str: the twelve named tokens, otherwise the
token must carry an X- or x- lead-in to count as proprietary. -/
def ValueDataType.from_str (s : String) : Except VCardError ValueDataType :=
  match s with
  | "uri" => .ok .uri
  | "text" => .ok .text
  | "date" => .ok .date
  | "time" => .ok .time
  | "date-time" => .ok .dateTime
  | "date-and-or-time" => .ok .dateAndOrTime
  | "timestamp" => .ok .timestamp
  | "boolean" => .ok .boolean
  | "integer" => .ok .integer
  | "float" => .ok .float
  | "utc-offset" => .ok .utcOffset
  | "language-tag" => .ok .languageTag
  | _ =>
    if !(starts_with s "X-") && !(starts_with s "x-") then
      .error (.unknownType s)
    else .ok (.proprietary s)

/-- Mirror of Pid (models/parameter.rs). -/
structure Pid where
  first_digit : Nat
  second_digit : Option Nat
deriving DecidableEq

/-- Mirror of Parameter (models/parameter.rs).  The Proprietary variant keeps
only the raw value text, exactly as the source does. -/
inductive Parameter where
  | label (s : String)
  | language (s : String)
  | value (v : ValueDataType)
  | pref (p : Nat)
  | altId (s : String)
  | pid (p : Pid)
  | type_param (ts : List String)
  | mediaType (s : String)
  | calScale (s : String)
  | sortAs (ss : List String)
  | geo (s : String)
  | timeZone (s : String)
  | proprietary (s : String)
deriving DecidableEq

/-- Mirror of Parameter::from_str (models/parameter.rs): split at the first
equals sign, dispatch on the lowercased key, unknown keys fall back to the
proprietary variant keeping only the value. -/
def Parameter.from_str (raw : String) : Except VCardError Parameter :=
  match splitOnce '=' raw.data with
  | none => .error (.invalidLine "parameter has no = sign" raw)
  | some (k, v) =>
    let identifier := lowerStr ⟨k⟩
    match identifier with
    | "language" => .ok (.language ⟨v⟩)
    | "pref" =>
      match parseU8 v with
      | some p => .ok (.pref p)
      | none => .error .parseIntError
    | "altid" => .ok (.altId ⟨v⟩)
    | "pid" =>
      let parts := rustSplit '.' v
      match parts with
      | [] => .error (.invalidPID ⟨v⟩)
      | d1 :: rest =>
        match parseU8 d1 with
        | none => .error .parseIntError
        | some first =>
          match rest with
          | [] => .ok (.pid ⟨first, none⟩)
          | d2 :: _ =>
            match parseU8 d2 with
            | none => .error .parseIntError
            | some second => .ok (.pid ⟨first, some second⟩)
    | "value" => (ValueDataType.from_str ⟨v⟩).map Parameter.value
    | "type" => .ok (.type_param ((rustSplit ',' v).map (fun l => (⟨l⟩ : String))))
    | "mediatype" => .ok (.mediaType ⟨v⟩)
    | "calscale" => .ok (.calScale ⟨v⟩)
    | "sort-as" => .ok (.sortAs ((rustSplit ',' v).map (fun l => (⟨l⟩ : String))))
    | "geo" => .ok (.geo ⟨v⟩)
    | "tz" => .ok (.timeZone ⟨v⟩)
    | _ => .ok (.proprietary ⟨v⟩)

/-- Mirror of Pid Display. -/
def Pid.display (p : Pid) : String :=
  match p.second_digit with
  | some d => toString p.first_digit ++ "." ++ toString d
  | none => toString p.first_digit

/-- Mirror of Parameter Display (models/parameter.rs).  Note the proprietary
variant writes only the stored value, with no key and no equals sign. -/
def Parameter.display : Parameter → String
  | .label l => "LABEL=" ++ l
  | .language l => "LANGUAGE=" ++ l
  | .value v => "VALUE=" ++ v.asStr
  | .pref p => "PREF=" ++ toString p
  | .altId a => "ALTID=" ++ a
  | .pid p => "PID=" ++ p.display
  | .type_param ts => "TYPE=" ++ String.intercalate "," ts
  | .mediaType m => "MEDIATYPE=" ++ m
  | .calScale c => "CALSCALE=" ++ c
  | .sortAs s => "SORT-AS=" ++ String.intercalate "," s
  | .geo g => "GEO=" ++ g
  | .timeZone t => "TZ=" ++ t
  | .proprietary p => p

/-- Mirror of parse_parameters (models/property.rs): strip leading semicolons,
then cut at every semicolon not immediately preceded by a backslash; each
segment is decoded by Parameter::from_str.  The byte before the current one is
threaded exactly as the source does (it is only updated on non-splitting
bytes, and starts as the NUL byte). -/
def parseParamsGo (prev : Char) (buf : List Char) :
    List Char → Except VCardError (List Parameter)
  | [] => (Parameter.from_str ⟨buf⟩).map (fun p => [p])
  | c :: cs =>
    if c = ';' ∧ prev ≠ '\\' then
      (Parameter.from_str ⟨buf⟩).bind fun p =>
        (parseParamsGo prev [] cs).map (fun ps => p :: ps)
    else parseParamsGo c (buf ++ [c]) cs

/-- Entry point of parse_parameters on the raw parameter capture. -/
def parse_parameters (raw : List Char) : Except VCardError (List Parameter) :=
  parseParamsGo '\x00' [] (trimStartSemis raw)

/-- Mirror of escaped_split (models/property.rs): the backslash makes the next
character literal (the backslash itself is dropped), the split character cuts,
everything else is copied; the final buffer is always emitted. -/
def escapedSplitGo (split : Char) : List Char → Bool → List Char → List (List Char)
  | [], _, buf => [buf]
  | c :: cs, escaped, buf =>
    if escaped then escapedSplitGo split cs false (buf ++ [c])
    else if c = '\\' then escapedSplitGo split cs true buf
    else if c = split then buf :: escapedSplitGo split cs false []
    else escapedSplitGo split cs false (buf ++ [c])

/-- Wrapper matching the source signature order (item, split). -/
def escaped_split (item : List Char) (split : Char) : List (List Char) :=
  escapedSplitGo split item false []

/-- Mirror of filter_and_transform (models/property.rs): drop empty strings. -/
def filter_and_transform (s : String) : Option String :=
  if s.data.isEmpty then none else some s

/-! The typed property structures of models/model.rs.  Field names and field
order follow the source (the order drives the generated Display code).  The
value payloads are carried as the raw strings that the decoder
(models/property.rs) stores into them. -/

/-- Mirror of the Alternative trait (models/model.rs). -/
class Alternative (T : Type) where
  get_alt_id : T → String

/-- Mirror of the Preferable trait (models/model.rs). -/
class Preferable (T : Type) where
  get_pref : T → Nat

export Alternative (get_alt_id)
export Preferable (get_pref)

/-- Mirror of VersionValue. -/
inductive VersionValue where
  | v3 | v4
deriving DecidableEq

/-- The strum serialization tokens of VersionValue. -/
def VersionValue.asStr : VersionValue → String
  | .v3 => "3.0"
  | .v4 => "4.0"

/-- Mirror of KindValue. -/
inductive KindValue where
  | individual | group | org | location
  | proprietary (s : String)
deriving DecidableEq

/-- Mirror of KindValue::from_str: never fails, unknown tokens become
proprietary with the original casing. -/
def KindValue.from_str (s : String) : Except VCardError KindValue :=
  match lowerStr s with
  | "individual" => .ok .individual
  | "group" => .ok .group
  | "org" => .ok .org
  | "location" => .ok .location
  | _ => .ok (.proprietary s)

/-- The strum serialization tokens of KindValue. -/
def KindValue.asStr : KindValue → String
  | .individual => "individual"
  | .group => "group"
  | .org => "org"
  | .location => "location"
  | .proprietary s => s

/-- Mirror of Sex. -/
inductive Sex where
  | male | female | other | noneSex | unknown
deriving DecidableEq

/-- Mirror of Sex::from_str: lowercase one-letter tokens, otherwise the
invalid gender error carrying the offending text. -/
def Sex.from_str (s : String) : Except VCardError Sex :=
  match lowerStr s with
  | "m" => .ok .male
  | "f" => .ok .female
  | "o" => .ok .other
  | "n" => .ok .noneSex
  | "u" => .ok .unknown
  | _ => .error (.invalidGenderError s)

/-- The strum serialization tokens of Sex. -/
def Sex.asStr : Sex → String
  | .male => "m"
  | .female => "f"
  | .other => "o"
  | .noneSex => "n"
  | .unknown => "u"

/-- Mirror of Kind. -/
structure Kind where
  group : Option String
  value : KindValue
deriving DecidableEq

/-- Mirror of Gender. -/
structure Gender where
  sex : Option Sex
  identity_component : Option String
deriving DecidableEq

/-- Mirror of Version. -/
structure Version where
  value : VersionValue
deriving DecidableEq

instance : Inhabited Version := ⟨⟨.v4⟩⟩

/-- Mirror of Source. -/
structure Source where
  group : Option String
  pid : Option Pid
  altid : Option String
  mediatype : Option String
  value : String
deriving DecidableEq

/-- Mirror of FN. -/
structure FN where
  group : Option String := none
  altid : Option String := none
  value_data_type : Option ValueDataType := none
  type_param : Option (List String) := none
  language : Option String := none
  pref : Option Nat := none
  value : String := ""
deriving DecidableEq

/-- Mirror of N. -/
structure N where
  altid : Option String := none
  language : Option String := none
  sort_as : Option (List String) := none
  group : Option String := none
  surenames : List String := []
  given_names : List String := []
  additional_names : List String := []
  honorific_prefixes : List String := []
  honorific_suffixes : List String := []
deriving DecidableEq

/-- Mirror of Nickname. -/
structure Nickname where
  group : Option String
  altid : Option String
  value_data_type : Option ValueDataType
  type_param : Option (List String)
  language : Option String
  pref : Option Nat
  pid : Option Pid
  value : List String
deriving DecidableEq

/-- Mirror of Photo. -/
structure Photo where
  group : Option String
  altid : Option String
  value_data_type : Option ValueDataType
  type_param : Option (List String)
  mediatype : Option String
  pref : Option Nat
  pid : Option Pid
  value : String
deriving DecidableEq

/-- Mirror of BDay. -/
structure BDay where
  altid : Option String := none
  calscale : Option String := none
  value_data_type : Option ValueDataType := none
  language : Option String := none
  value : String := ""
deriving DecidableEq

/-- Mirror of Anniversary. -/
structure Anniversary where
  altid : Option String := none
  calscale : Option String := none
  value_data_type : Option ValueDataType := none
  value : String := ""
deriving DecidableEq

/-- Mirror of Adr. -/
structure Adr where
  group : Option String
  altid : Option String
  label : Option String
  language : Option String
  geo : Option String
  tz : Option String
  pid : Option Pid
  pref : Option Nat
  value_data_type : Option ValueDataType
  type_param : Option (List String)
  po_box : List String
  extended_address : List String
  street : List String
  city : List String
  region : List String
  postal_code : List String
  country : List String
deriving DecidableEq

/-- Mirror of Tel. -/
structure Tel where
  value_data_type : Option ValueDataType
  type_param : Option (List String)
  pid : Option Pid
  pref : Option Nat
  altid : Option String
  value : String
deriving DecidableEq

/-- Mirror of Email. -/
structure Email where
  group : Option String
  altid : Option String
  pid : Option Pid
  pref : Option Nat
  value_data_type : Option ValueDataType
  type_param : Option (List String)
  value : String
deriving DecidableEq

/-- Mirror of Impp. -/
structure Impp where
  group : Option String
  altid : Option String
  pid : Option Pid
  pref : Option Nat
  mediatype : Option String
  value_data_type : Option ValueDataType
  type_param : Option (List String)
  value : String
deriving DecidableEq

/-- Mirror of Lang. -/
structure Lang where
  group : Option String
  altid : Option String
  pid : Option Pid
  pref : Option Nat
  value_data_type : Option ValueDataType
  type_param : Option (List String)
  value : String
deriving DecidableEq

/-- Mirror of Tz. -/
structure Tz where
  group : Option String
  altid : Option String
  pid : Option Pid
  pref : Option Nat
  value_data_type : Option ValueDataType
  type_param : Option (List String)
  mediatype : Option String
  value : String
deriving DecidableEq

/-- Mirror of Geo. -/
structure Geo where
  group : Option String
  altid : Option String
  pid : Option Pid
  pref : Option Nat
  value_data_type : Option ValueDataType
  type_param : Option (List String)
  mediatype : Option String
  value : String
deriving DecidableEq

/-- Mirror of Title. -/
structure Title where
  group : Option String
  altid : Option String
  pid : Option Pid
  pref : Option Nat
  value_data_type : Option ValueDataType
  type_param : Option (List String)
  language : Option String
  value : String
deriving DecidableEq

/-- Mirror of Role. -/
structure Role where
  group : Option String
  altid : Option String
  pid : Option Pid
  pref : Option Nat
  value_data_type : Option ValueDataType
  type_param : Option (List String)
  language : Option String
  value : String
deriving DecidableEq

/-- Mirror of Logo. -/
structure Logo where
  group : Option String
  altid : Option String
  pid : Option Pid
  pref : Option Nat
  value_data_type : Option ValueDataType
  type_param : Option (List String)
  language : Option String
  mediatype : Option String
  value : String
deriving DecidableEq

/-- Mirror of Org. -/
structure Org where
  group : Option String
  altid : Option String
  pid : Option Pid
  pref : Option Nat
  value_data_type : Option ValueDataType
  type_param : Option (List String)
  language : Option String
  sort_as : Option (List String)
  value : List String
deriving DecidableEq

/-- Mirror of Member. -/
structure Member where
  group : Option String
  altid : Option String
  pid : Option Pid
  pref : Option Nat
  mediatype : Option String
  value : String
deriving DecidableEq

/-- Mirror of Related. -/
structure Related where
  group : Option String
  altid : Option String
  pid : Option Pid
  pref : Option Nat
  value_data_type : Option ValueDataType
  type_param : Option (List String)
  language : Option String
  mediatype : Option String
  value : String
deriving DecidableEq

/-- Mirror of Categories. -/
structure Categories where
  group : Option String
  altid : Option String
  pid : Option Pid
  pref : Option Nat
  value_data_type : Option ValueDataType
  type_param : Option (List String)
  value : List String
deriving DecidableEq

/-- Mirror of Note. -/
structure Note where
  group : Option String
  altid : Option String
  pid : Option Pid
  pref : Option Nat
  value_data_type : Option ValueDataType
  type_param : Option (List String)
  language : Option String
  value : String
deriving DecidableEq

/-- Mirror of ProdId. -/
structure ProdId where
  group : Option String
  value : String
deriving DecidableEq

/-- Mirror of Rev. -/
structure Rev where
  group : Option String
  value : String
deriving DecidableEq

/-- Mirror of Sound. -/
structure Sound where
  group : Option String
  altid : Option String
  pid : Option Pid
  pref : Option Nat
  value_data_type : Option ValueDataType
  type_param : Option (List String)
  language : Option String
  mediatype : Option String
  value : String
deriving DecidableEq

/-- Mirror of Uid. -/
structure Uid where
  group : Option String
  value_data_type : Option ValueDataType
  value : String
deriving DecidableEq

/-- Mirror of ClientPidMap. -/
structure ClientPidMap where
  group : Option String
  pid_digit : Nat
  value : String
deriving DecidableEq

/-- Mirror of VcardURL. -/
structure VcardURL where
  group : Option String
  altid : Option String
  pid : Option Pid
  pref : Option Nat
  value_data_type : Option ValueDataType
  type_param : Option (List String)
  mediatype : Option String
  value : String
deriving DecidableEq

/-- Mirror of FbURL. -/
structure FbURL where
  group : Option String
  altid : Option String
  pid : Option Pid
  pref : Option Nat
  value_data_type : Option ValueDataType
  type_param : Option (List String)
  mediatype : Option String
  value : String
deriving DecidableEq

/-- Mirror of CalAdURI. -/
structure CalAdURI where
  group : Option String
  altid : Option String
  pid : Option Pid
  pref : Option Nat
  value_data_type : Option ValueDataType
  type_param : Option (List String)
  mediatype : Option String
  value : String
deriving DecidableEq

/-- Mirror of CalURI. -/
structure CalURI where
  group : Option String
  altid : Option String
  pid : Option Pid
  pref : Option Nat
  value_data_type : Option ValueDataType
  type_param : Option (List String)
  mediatype : Option String
  value : String
deriving DecidableEq

/-- Mirror of Key. -/
structure Key where
  group : Option String
  altid : Option String
  pid : Option Pid
  pref : Option Nat
  value_data_type : Option ValueDataType
  type_param : Option (List String)
  mediatype : Option String
  value : String
deriving DecidableEq

/-- Mirror of Xml. -/
structure Xml where
  altid : Option String
  group : Option String
  value : String
deriving DecidableEq

/-- Mirror of ProprietaryProperty. -/
structure ProprietaryProperty where
  name : String
  group : Option String
  value : String
  parameters : List Parameter
deriving DecidableEq

/-- Mirror of the Property enum (models/property.rs). -/
inductive Property where
  | begin_prop (value : String)
  | end_prop (value : String)
  | version (v : Version)
  | source (s : Source)
  | kind (k : Kind)
  | fn_prop (f : FN)
  | n (v : N)
  | nickName (v : Nickname)
  | photo (v : Photo)
  | bday (v : BDay)
  | anniversary (v : Anniversary)
  | gender (v : Gender)
  | adr (v : Adr)
  | tel (v : Tel)
  | email (v : Email)
  | impp (v : Impp)
  | lang (v : Lang)
  | tz (v : Tz)
  | geo (v : Geo)
  | title (v : Title)
  | role (v : Role)
  | logo (v : Logo)
  | org (v : Org)
  | member (v : Member)
  | related (v : Related)
  | categories (v : Categories)
  | note (v : Note)
  | prodId (v : ProdId)
  | rev (v : Rev)
  | sound (v : Sound)
  | uid (v : Uid)
  | clientPidMap (v : ClientPidMap)
  | url (v : VcardURL)
  | key (v : Key)
  | fbUrl (v : FbURL)
  | calAdUri (v : CalAdURI)
  | calUri (v : CalURI)
  | xml (v : Xml)
  | proprietary (v : ProprietaryProperty)
deriving DecidableEq

/-! The AltID and Pref derive macros of vcard_macro generate accessors that
default an absent alt-id to the empty string and an absent preference to
100.  One instance pair per derive in model.rs. -/

instance : Alternative Source := ⟨fun x => x.altid.getD ""⟩
instance : Alternative FN := ⟨fun x => x.altid.getD ""⟩
instance : Alternative N := ⟨fun x => x.altid.getD ""⟩
instance : Alternative Nickname := ⟨fun x => x.altid.getD ""⟩
instance : Alternative Photo := ⟨fun x => x.altid.getD ""⟩
instance : Alternative BDay := ⟨fun x => x.altid.getD ""⟩
instance : Alternative Anniversary := ⟨fun x => x.altid.getD ""⟩
instance : Alternative Adr := ⟨fun x => x.altid.getD ""⟩
instance : Alternative Tel := ⟨fun x => x.altid.getD ""⟩
instance : Alternative Email := ⟨fun x => x.altid.getD ""⟩
instance : Alternative Impp := ⟨fun x => x.altid.getD ""⟩
instance : Alternative Lang := ⟨fun x => x.altid.getD ""⟩
instance : Alternative Tz := ⟨fun x => x.altid.getD ""⟩
instance : Alternative Geo := ⟨fun x => x.altid.getD ""⟩
instance : Alternative Title := ⟨fun x => x.altid.getD ""⟩
instance : Alternative Role := ⟨fun x => x.altid.getD ""⟩
instance : Alternative Logo := ⟨fun x => x.altid.getD ""⟩
instance : Alternative Org := ⟨fun x => x.altid.getD ""⟩
instance : Alternative Member := ⟨fun x => x.altid.getD ""⟩
instance : Alternative Related := ⟨fun x => x.altid.getD ""⟩
instance : Alternative Categories := ⟨fun x => x.altid.getD ""⟩
instance : Alternative Note := ⟨fun x => x.altid.getD ""⟩
instance : Alternative Sound := ⟨fun x => x.altid.getD ""⟩
instance : Alternative VcardURL := ⟨fun x => x.altid.getD ""⟩
instance : Alternative FbURL := ⟨fun x => x.altid.getD ""⟩
instance : Alternative CalAdURI := ⟨fun x => x.altid.getD ""⟩
instance : Alternative CalURI := ⟨fun x => x.altid.getD ""⟩
instance : Alternative Key := ⟨fun x => x.altid.getD ""⟩
instance : Alternative Xml := ⟨fun x => x.altid.getD ""⟩

instance : Preferable FN := ⟨fun x => x.pref.getD 100⟩
instance : Preferable Photo := ⟨fun x => x.pref.getD 100⟩
instance : Preferable Adr := ⟨fun x => x.pref.getD 100⟩
instance : Preferable Tel := ⟨fun x => x.pref.getD 100⟩
instance : Preferable Email := ⟨fun x => x.pref.getD 100⟩
instance : Preferable Impp := ⟨fun x => x.pref.getD 100⟩
instance : Preferable Lang := ⟨fun x => x.pref.getD 100⟩
instance : Preferable Tz := ⟨fun x => x.pref.getD 100⟩
instance : Preferable Geo := ⟨fun x => x.pref.getD 100⟩
instance : Preferable Title := ⟨fun x => x.pref.getD 100⟩
instance : Preferable Role := ⟨fun x => x.pref.getD 100⟩
instance : Preferable Logo := ⟨fun x => x.pref.getD 100⟩
instance : Preferable Org := ⟨fun x => x.pref.getD 100⟩
instance : Preferable Member := ⟨fun x => x.pref.getD 100⟩
instance : Preferable Related := ⟨fun x => x.pref.getD 100⟩

/-! Content-line tokenizer.  The source captures against the anchored-nowhere
pattern (group)? (name) (parameter)* : (value) with
group = one or more non-semicolon non-colon characters then a literal dot,
name = one or more non-semicolon non-colon characters,
parameter = a semicolon then one or more non-colon characters,
value = any run of non-newline characters,
using leftmost-first (backtracking) semantics and, as the parameter capture,
the text of the last iteration of the starred group.  The matcher below
implements exactly that search: candidate lengths are tried longest first
(greedy), the optional group is tried present before absent, more star
iterations are tried before leaving the star, and start positions advance from
the left. -/

/-- A character admissible in the group and name captures. -/
def isNameChar (c : Char) : Bool := c ≠ ';' && c ≠ ':'

/-- Candidate lengths n, n-1, ..., 1 in greedy (longest first) order. -/
def descLens (n : Nat) : List Nat := (List.range n).reverse.map (· + 1)

/-- The four capture texts of the content-line pattern. -/
structure RawCaptures where
  group : Option (List Char)
  name : List Char
  params : Option (List Char)
  value : List Char
deriving DecidableEq

/-- Matches the tail (parameter)* : (value) of the pattern at cs, keeping the
capture of the last parameter iteration; the fuel bounds the number of star
iterations (each one consumes at least two characters, so any fuel above the
input length is exact). -/
def starColon : Nat → Option (List Char) → List Char → Option (Option (List Char) × List Char)
  | 0, _, _ => none
  | fuel + 1, prev, cs =>
    let iter : Option (Option (List Char) × List Char) :=
      match cs with
      | c :: rest =>
        if c = ';' then
          let run := rest.takeWhile (fun x => x ≠ ':')
          (descLens run.length).findSome? (fun p =>
            starColon fuel (some (';' :: rest.take p)) (rest.drop p))
        else none
      | [] => none
    iter <|> (match cs with
      | c :: rest =>
        if c = ':' then some (prev, rest.takeWhile (fun x => x ≠ '\n'))
        else none
      | [] => none)

/-- Matches (name) (parameter)* : (value) at cs with the group capture already
fixed. -/
def matchAtBody (grp : Option (List Char)) (cs : List Char) : Option RawCaptures :=
  let run := cs.takeWhile isNameChar
  (descLens run.length).findSome? (fun nLen =>
    (starColon (cs.length + 1) none (cs.drop nLen)).map (fun pv =>
      ⟨grp, cs.take nLen, pv.1, pv.2⟩))

/-- Matches the whole pattern at one start position: the optional group first
present with the dot placed as far right as possible, then absent. -/
def matchAtPos (cs : List Char) : Option RawCaptures :=
  let run := cs.takeWhile isNameChar
  let aCands := (descLens (run.length - 1)).filter (fun m => cs.get? m = some '.')
  (aCands.findSome? (fun m =>
    matchAtBody (some (cs.take (m + 1))) (cs.drop (m + 1))))
  <|> matchAtBody none cs

/-- Regex captures: the first start position, from the left, where the pattern
matches. -/
def findCaptures : List Char → Option RawCaptures
  | [] => matchAtPos []
  | c :: cs => matchAtPos (c :: cs) <|> findCaptures cs

/-- The thirteen demultiplexing slots that Property::from_str fills from the
decoded parameter list before dispatching on the property name. -/
structure ParamState where
  pid : Option Pid := none
  altid : Option String := none
  mediatype : Option String := none
  tz : Option String := none
  geo : Option String := none
  sort_as : Option (List String) := none
  calscale : Option String := none
  type_param : Option (List String) := none
  value_data_type : Option ValueDataType := none
  pref : Option Nat := none
  language : Option String := none
  label : Option String := none
  proprietary_parameters : List Parameter := []

/-- One step of the parameter demultiplexing loop: later parameters overwrite
earlier ones, except that TYPE appends and proprietary parameters
accumulate. -/
def demuxParam (st : ParamState) : Parameter → ParamState
  | .pid p => { st with pid := some p }
  | .altId a => { st with altid := some a }
  | .mediaType m => { st with mediatype := some m }
  | .timeZone t => { st with tz := some t }
  | .geo g => { st with geo := some g }
  | .sortAs s => { st with sort_as := some s }
  | .calScale c => { st with calscale := some c }
  | .value t => { st with value_data_type := some t }
  | .type_param t =>
    { st with type_param := some (match st.type_param with
        | some tp => tp ++ t
        | none => t) }
  | .language l => { st with language := some l }
  | .pref p => { st with pref := some p }
  | .label l => { st with label := some l }
  | .proprietary p =>
    { st with proprietary_parameters := st.proprietary_parameters ++ [.proprietary p] }

/-- The GENDER arm of Property::from_str: split the raw value once at the
first semicolon; an empty sex token stays none, otherwise it must name a sex;
the identity component is everything after the separator. -/
def genderValue (value : String) : Except VCardError Property :=
  match splitOnce ';' value.data with
  | none => .error (.invalidSyntax "Gender"
      "gender property must include a semicolon (;)")
  | some (sexRaw, identity) =>
    let sexVal : Except VCardError (Option Sex) :=
      if sexRaw = [] then .ok none
      else (Sex.from_str ⟨sexRaw⟩).map some
    sexVal.map (fun sx => .gender ⟨sx, some ⟨identity⟩⟩)

/-- The structured-value split shared by the N and ADR arms: positions on
unescaped semicolons, sub-items on unescaped commas, empty sub-items
dropped. -/
def structuredSplit (value : List Char) : List (List String) :=
  (escaped_split value ';').map (fun item =>
    ((escaped_split item ',').map (fun l => (⟨l⟩ : String))).filterMap filter_and_transform)

/-- Mirror of Property::from_str (models/property.rs): tokenize the logical
line, decode and demultiplex the parameters, then dispatch on the lowercased
name.  Every arm reproduces the field assignments of the source; names with
no arm must carry an X- or x- lead-in and become proprietary properties. -/
def Property.from_str (line : String) : Except VCardError Property :=
  match findCaptures line.data with
  | none => .error (.invalidLine "does not match property pattern" line)
  | some cap =>
    let group : Option String := cap.group.map (fun g => (⟨trimEndDots g⟩ : String))
    let name : String := ⟨trimNuls cap.name⟩
    let value : String := ⟨cap.value⟩
    let rawParams : Except VCardError (List Parameter) :=
      match cap.params with
      | some raw => parse_parameters raw
      | none => .ok []
    match rawParams with
    | .error e => .error e
    | .ok parameters =>
      let st : ParamState := parameters.foldl demuxParam {}
      match lowerStr name with
      | "begin" => .ok (.begin_prop value)
      | "end" => .ok (.end_prop value)
      | "version" =>
        match value with
        | "4.0" => .ok (.version ⟨.v4⟩)
        | "3.0" => .ok (.version ⟨.v3⟩)
        | _ => .error (.invalidVersion value)
      | "source" => .ok (.source ⟨group, st.pid, st.altid, st.mediatype, value⟩)
      | "kind" => (KindValue.from_str value).map (fun kv => .kind ⟨group, kv⟩)
      | "fn" => .ok (.fn_prop ⟨group, st.altid, st.value_data_type, st.type_param,
          st.language, st.pref, value⟩)
      | "n" =>
        let split := structuredSplit value.data
        .ok (.n ⟨st.altid, st.language, st.sort_as, group,
          split.getD 0 [], split.getD 1 [], split.getD 2 [],
          split.getD 3 [], split.getD 4 []⟩)
      | "nickname" => .ok (.nickName ⟨group, st.altid, st.value_data_type,
          st.type_param, st.language, st.pref, st.pid,
          (escaped_split value.data ',').map (fun l => (⟨l⟩ : String))⟩)
      | "photo" => .ok (.photo ⟨group, st.altid, st.value_data_type, st.type_param,
          st.mediatype, st.pref, st.pid, value⟩)
      | "bday" => .ok (.bday ⟨st.altid, st.calscale, st.value_data_type,
          st.language, value⟩)
      | "anniversary" => .ok (.anniversary ⟨st.altid, st.calscale,
          st.value_data_type, value⟩)
      | "gender" => genderValue value
      | "adr" =>
        let split := structuredSplit value.data
        .ok (.adr ⟨group, st.altid, st.label, st.language, st.geo, st.tz,
          st.pid, st.pref, st.value_data_type, st.type_param,
          split.getD 0 [], split.getD 1 [], split.getD 2 [], split.getD 3 [],
          split.getD 4 [], split.getD 5 [], split.getD 6 []⟩)
      | "tel" => .ok (.tel ⟨st.value_data_type, st.type_param, st.pid, st.pref,
          st.altid, value⟩)
      | "email" => .ok (.email ⟨group, st.altid, st.pid, st.pref,
          st.value_data_type, st.type_param, value⟩)
      | "impp" => .ok (.impp ⟨group, st.altid, st.pid, st.pref, st.mediatype,
          st.value_data_type, st.type_param, value⟩)
      | "lang" => .ok (.lang ⟨group, st.altid, st.pid, st.pref,
          st.value_data_type, st.type_param, value⟩)
      | "tz" => .ok (.tz ⟨group, st.altid, st.pid, st.pref, st.value_data_type,
          st.type_param, st.mediatype, value⟩)
      | "geo" => .ok (.geo ⟨group, st.altid, st.pid, st.pref, st.value_data_type,
          st.type_param, st.mediatype, value⟩)
      | "title" => .ok (.title ⟨group, st.altid, st.pid, st.pref,
          st.value_data_type, st.type_param, st.language, value⟩)
      | "role" => .ok (.role ⟨group, st.altid, st.pid, st.pref,
          st.value_data_type, st.type_param, st.language, value⟩)
      | "categories" => .ok (.categories ⟨group, st.altid, st.pid, st.pref,
          st.value_data_type, st.type_param,
          (((escaped_split value.data ',').map (fun l => (⟨l⟩ : String))).filterMap
            filter_and_transform)⟩)
      | "org" => .ok (.org ⟨group, st.altid, st.pid, st.pref, st.value_data_type,
          st.type_param, st.language, st.sort_as,
          (((escaped_split value.data ';').map (fun l => (⟨l⟩ : String))).filterMap
            filter_and_transform)⟩)
      | "member" => .ok (.member ⟨group, st.altid, st.pid, st.pref,
          st.mediatype, value⟩)
      | "related" => .ok (.related ⟨group, st.altid, st.pid, st.pref,
          st.value_data_type, st.type_param, st.language, st.mediatype, value⟩)
      | "logo" => .ok (.logo ⟨group, st.altid, st.pid, st.pref,
          st.value_data_type, st.type_param, st.language, st.mediatype, value⟩)
      | "note" => .ok (.note ⟨group, st.altid, st.pid, st.pref,
          st.value_data_type, st.type_param, st.language, value⟩)
      | "prodid" => .ok (.prodId ⟨group, value⟩)
      | "rev" => .ok (.rev ⟨group, value⟩)
      | "sound" => .ok (.sound ⟨group, st.altid, st.pid, st.pref,
          st.value_data_type, st.type_param, st.language, st.mediatype, value⟩)
      | "uid" => .ok (.uid ⟨group, st.value_data_type, value⟩)
      | "clientidmap" =>
        let parts := rustSplit ';' value.data
        match parts with
        | [] => .error (.invalidLine
            "expected clientpidmap value to have two parts separated by ';'" value)
        | d1 :: rest =>
          match parseU8 d1 with
          | none => .error .parseIntError
          | some pidDigit =>
            match rest with
            | [] => .error (.invalidLine
                "expected clientpidmap value to have two parts separated by ';'" value)
            | d2 :: _ => .ok (.clientPidMap ⟨group, pidDigit, ⟨d2⟩⟩)
      | "url" => .ok (.url ⟨group, st.altid, st.pid, st.pref, st.value_data_type,
          st.type_param, st.mediatype, value⟩)
      | "key" => .ok (.key ⟨group, st.altid, st.pid, st.pref, st.value_data_type,
          st.type_param, st.mediatype, value⟩)
      | "fburl" => .ok (.fbUrl ⟨group, st.altid, st.pid, st.pref,
          st.value_data_type, st.type_param, st.mediatype, value⟩)
      | "caladuri" => .ok (.calAdUri ⟨group, st.altid, st.pid, st.pref,
          st.value_data_type, st.type_param, st.mediatype, value⟩)
      | "caluri" => .ok (.calUri ⟨group, st.altid, st.pid, st.pref,
          st.value_data_type, st.type_param, st.mediatype, value⟩)
      | "xml" => .ok (.xml ⟨st.altid, group, value⟩)
      | _ =>
        if !(starts_with name "X-") && !(starts_with name "x-") then
          .error (.invalidName name line)
        else
          let extra : List Parameter :=
            (match st.altid with | some a => [Parameter.altId a] | none => [])
            ++ (match st.pid with | some p => [Parameter.pid p] | none => [])
            ++ (match st.mediatype with | some m => [Parameter.mediaType m] | none => [])
            ++ (match st.tz with | some t => [Parameter.timeZone t] | none => [])
            ++ (match st.geo with | some g => [Parameter.geo g] | none => [])
            ++ (match st.sort_as with | some s => [Parameter.sortAs s] | none => [])
            ++ (match st.calscale with | some c => [Parameter.calScale c] | none => [])
            ++ (match st.label with | some l => [Parameter.label l] | none => [])
            ++ (match st.type_param with | some t => [Parameter.type_param t] | none => [])
            ++ (match st.pref with | some p => [Parameter.pref p] | none => [])
            ++ (match st.language with | some l => [Parameter.language l] | none => [])
          .ok (.proprietary ⟨name, group, value,
            st.proprietary_parameters ++ extra⟩)

/-! The alternative-representation containers (models/containers.rs).
AltIDContainer wraps a vector; MultiAltIDContainer wraps a hash map from
alt-id to AltIDContainer, modelled as an association list in insertion
order (the source hash map iterates in an unspecified order; every theorem
stated over this model holds for an arbitrary entry order). -/

/-- Mirror of AltIDContainer. -/
structure AltIDContainer (T : Type) where
  items : List T
deriving DecidableEq

/-- Mirror of AltIDContainer::new. -/
def AltIDContainer.new (T : Type) : AltIDContainer T := ⟨[]⟩

/-- Mirror of AltIDContainer::from_vec. -/
def AltIDContainer.from_vec {T : Type} (items : List T) : AltIDContainer T := ⟨items⟩

/-- Mirror of AltIDContainer::add_value: an empty container accepts anything;
otherwise the incoming alt-id must equal the first member's alt-id, and the
item is appended at the end. -/
def AltIDContainer.add_value {T : Type} [Alternative T] (c : AltIDContainer T)
    (item : T) : Except VCardError (AltIDContainer T) :=
  match c.items with
  | [] => .ok ⟨[item]⟩
  | first :: _ =>
    if get_alt_id first ≠ get_alt_id item then
      .error (.invalidAltID (get_alt_id first) (get_alt_id item))
    else .ok ⟨c.items ++ [item]⟩

/-- The loop body of AltIDContainer::get_prefered_value: keep the current
candidate unless the next item has a strictly smaller preference. -/
def getPreferedLoop {T : Type} [Preferable T] : Option T → List T → Option T
  | acc, [] => acc
  | none, x :: xs => getPreferedLoop (some x) xs
  | some p, x :: xs =>
    if get_pref p > get_pref x then getPreferedLoop (some x) xs
    else getPreferedLoop (some p) xs

/-- Mirror of AltIDContainer::get_prefered_value. -/
def AltIDContainer.get_prefered_value {T : Type} [Preferable T]
    (c : AltIDContainer T) : Option T :=
  getPreferedLoop none c.items

/-- Mirror of MultiAltIDContainer (the alt-id keyed hash map). -/
structure MultiAltIDContainer (T : Type) where
  buckets : List (String × AltIDContainer T)
deriving DecidableEq

/-- Mirror of MultiAltIDContainer::new / Default. -/
def MultiAltIDContainer.new (T : Type) : MultiAltIDContainer T := ⟨[]⟩

/-- Hash-map key lookup. -/
def MultiAltIDContainer.lookup {T : Type} (m : MultiAltIDContainer T)
    (k : String) : Option (AltIDContainer T) :=
  (m.buckets.find? (fun p => p.1 = k)).map Prod.snd

/-- Hash-map insert for a key already present: replace that entry in place. -/
def updateBuckets {T : Type} (k : String) (c : AltIDContainer T) :
    List (String × AltIDContainer T) → List (String × AltIDContainer T)
  | [] => []
  | (k', c') :: rest =>
    if k' = k then (k, c) :: rest else (k', c') :: updateBuckets k c rest

/-- Mirror of MultiAltIDContainer::add_value: route the item to the bucket
keyed by its own alt-id, creating the bucket when absent; a mismatch error
from the delegated AltIDContainer::add_value aborts the process (the expect
call), modelled as the none result. -/
def MultiAltIDContainer.add_value {T : Type} [Alternative T]
    (m : MultiAltIDContainer T) (value : T) : Option (MultiAltIDContainer T) :=
  match m.lookup (get_alt_id value) with
  | some container =>
    match container.add_value value with
    | .ok c' => some ⟨updateBuckets (get_alt_id value) c' m.buckets⟩
    | .error _ => none
  | none =>
    some ⟨m.buckets ++ [(get_alt_id value, AltIDContainer.from_vec [value])]⟩

/-- The loop body of MultiAltIDContainer::get_prefered_value: a bucket with
no preferred member is skipped; otherwise the bucket representative replaces
the candidate when its preference is strictly smaller. -/
def prefStep {T : Type} [Preferable T] (acc : Option T)
    (p : String × AltIDContainer T) : Option T :=
  match p.2.get_prefered_value, acc with
  | none, acc => acc
  | some cpi, none => some cpi
  | some cpi, some pi => if get_pref pi > get_pref cpi then some cpi else some pi

/-- Mirror of MultiAltIDContainer::get_prefered_value: each bucket's own
preferred member is computed, and the strictly-smaller comparison keeps the
best representative across buckets. -/
def MultiAltIDContainer.get_prefered_value {T : Type} [Preferable T]
    (m : MultiAltIDContainer T) : Option T :=
  m.buckets.foldl prefStep none

/-- All members of all buckets of a MultiAltIDContainer. -/
def MultiAltIDContainer.allItems {T : Type} (m : MultiAltIDContainer T) : List T :=
  (m.buckets.map (fun p => p.2.items)).flatten

/-! Serializer.  The vcard attribute macro (vcard_macro/src/lib.rs) generates
one Display implementation per struct: the optional group then the uppercased
struct name, then one parameter fragment per struct field in declaration
order (only the eleven field names the macro recognizes produce output; any
other field, such as label or pid_digit, is silently skipped), then the value
fragment chosen by the struct name, then CRLF. -/

/-- CRLF line terminator. -/
def crlf : String := "\r\n"

/-- The group-dot-name lead-in of the generated Display code. -/
def grpName (group : Option String) (name : String) : String :=
  match group with
  | some g => g ++ "." ++ name
  | none => name

/-- The ALTID fragment. -/
def dAltid : Option String → String
  | some a => ";ALTID=" ++ a
  | none => ""

/-- The LANGUAGE fragment. -/
def dLanguage : Option String → String
  | some l => ";LANGUAGE=" ++ l
  | none => ""

/-- The VALUE fragment. -/
def dValueType : Option ValueDataType → String
  | some v => ";VALUE=" ++ v.asStr
  | none => ""

/-- The PREF fragment. -/
def dPref : Option Nat → String
  | some p => ";PREF=" ++ toString p
  | none => ""

/-- The PID fragment. -/
def dPid : Option Pid → String
  | some p => ";PID=" ++ p.display
  | none => ""

/-- The TYPE fragments, one per list entry. -/
def dTypeParam : Option (List String) → String
  | some ts => String.join (ts.map (fun t => ";TYPE=" ++ t))
  | none => ""

/-- The MEDIATYPE fragment. -/
def dMediatype : Option String → String
  | some m => ";MEDIATYPE=" ++ m
  | none => ""

/-- The CALSCALE fragment. -/
def dCalscale : Option String → String
  | some c => ";CALSCALE=" ++ c
  | none => ""

/-- The SORT-AS fragment; note the generated code wraps the joined list in
double quotes. -/
def dSortAs : Option (List String) → String
  | some s => ";SORT-AS=\"" ++ String.intercalate "," s ++ "\""
  | none => ""

/-- The GEO parameter fragment. -/
def dGeoParam : Option String → String
  | some g => ";GEO=" ++ g
  | none => ""

/-- The TZ parameter fragment. -/
def dTzParam : Option String → String
  | some t => ";TZ=" ++ t
  | none => ""

/-- Generated Display for Version. -/
def Version.display (x : Version) : String :=
  "VERSION" ++ ":" ++ x.value.asStr ++ crlf

/-- Generated Display for Kind. -/
def Kind.display (x : Kind) : String :=
  grpName x.group "KIND" ++ ":" ++ x.value.asStr ++ crlf

/-- Generated Display for Gender: the sex token if present, then the identity
component after a semicolon if present. -/
def Gender.display (x : Gender) : String :=
  "GENDER"
    ++ (match x.sex with
        | some s => ":" ++ s.asStr
        | none => ":")
    ++ (match x.identity_component with
        | some c => ";" ++ c
        | none => "")
    ++ crlf

/-- Generated Display for Source (fields: group, pid, altid, mediatype,
value). -/
def Source.display (x : Source) : String :=
  grpName x.group "SOURCE" ++ dPid x.pid ++ dAltid x.altid ++ dMediatype x.mediatype
    ++ ":" ++ x.value ++ crlf

/-- Generated Display for FN (fields: group, altid, value_data_type,
type_param, language, pref, value). -/
def FN.display (x : FN) : String :=
  grpName x.group "FN" ++ dAltid x.altid ++ dValueType x.value_data_type
    ++ dTypeParam x.type_param ++ dLanguage x.language ++ dPref x.pref
    ++ ":" ++ x.value ++ crlf

/-- Generated Display for N (fields: altid, language, sort_as, group, then the
five name positions rejoined with semicolons and commas). -/
def N.display (x : N) : String :=
  grpName x.group "N" ++ dAltid x.altid ++ dLanguage x.language ++ dSortAs x.sort_as
    ++ ":" ++ String.intercalate "," x.surenames
    ++ ";" ++ String.intercalate "," x.given_names
    ++ ";" ++ String.intercalate "," x.additional_names
    ++ ";" ++ String.intercalate "," x.honorific_prefixes
    ++ ";" ++ String.intercalate "," x.honorific_suffixes ++ crlf

/-- Generated Display for Nickname. -/
def Nickname.display (x : Nickname) : String :=
  grpName x.group "NICKNAME" ++ dAltid x.altid ++ dValueType x.value_data_type
    ++ dTypeParam x.type_param ++ dLanguage x.language ++ dPref x.pref ++ dPid x.pid
    ++ ":" ++ String.intercalate "," x.value ++ crlf

/-- Generated Display for Photo. -/
def Photo.display (x : Photo) : String :=
  grpName x.group "PHOTO" ++ dAltid x.altid ++ dValueType x.value_data_type
    ++ dTypeParam x.type_param ++ dMediatype x.mediatype ++ dPref x.pref ++ dPid x.pid
    ++ ":" ++ x.value ++ crlf

/-- Generated Display for BDay. -/
def BDay.display (x : BDay) : String :=
  "BDAY" ++ dAltid x.altid ++ dCalscale x.calscale ++ dValueType x.value_data_type
    ++ dLanguage x.language ++ ":" ++ x.value ++ crlf

/-- Generated Display for Anniversary. -/
def Anniversary.display (x : Anniversary) : String :=
  "ANNIVERSARY" ++ dAltid x.altid ++ dCalscale x.calscale
    ++ dValueType x.value_data_type ++ ":" ++ x.value ++ crlf

/-- Generated Display for Adr; the label field has no fragment arm in the
macro and is dropped; the seven positions are rejoined with semicolons and
commas. -/
def Adr.display (x : Adr) : String :=
  grpName x.group "ADR" ++ dAltid x.altid ++ dLanguage x.language
    ++ dGeoParam x.geo ++ dTzParam x.tz ++ dPid x.pid ++ dPref x.pref
    ++ dValueType x.value_data_type ++ dTypeParam x.type_param
    ++ ":" ++ String.intercalate "," x.po_box
    ++ ";" ++ String.intercalate "," x.extended_address
    ++ ";" ++ String.intercalate "," x.street
    ++ ";" ++ String.intercalate "," x.city
    ++ ";" ++ String.intercalate "," x.region
    ++ ";" ++ String.intercalate "," x.postal_code
    ++ ";" ++ String.intercalate "," x.country ++ crlf

/-- Generated Display for Tel (no group field). -/
def Tel.display (x : Tel) : String :=
  "TEL" ++ dValueType x.value_data_type ++ dTypeParam x.type_param
    ++ dPid x.pid ++ dPref x.pref ++ dAltid x.altid ++ ":" ++ x.value ++ crlf

/-- Generated Display for Email. -/
def Email.display (x : Email) : String :=
  grpName x.group "EMAIL" ++ dAltid x.altid ++ dPid x.pid ++ dPref x.pref
    ++ dValueType x.value_data_type ++ dTypeParam x.type_param
    ++ ":" ++ x.value ++ crlf

/-- Generated Display for Impp. -/
def Impp.display (x : Impp) : String :=
  grpName x.group "IMPP" ++ dAltid x.altid ++ dPid x.pid ++ dPref x.pref
    ++ dMediatype x.mediatype ++ dValueType x.value_data_type
    ++ dTypeParam x.type_param ++ ":" ++ x.value ++ crlf

/-- Generated Display for Lang. -/
def Lang.display (x : Lang) : String :=
  grpName x.group "LANG" ++ dAltid x.altid ++ dPid x.pid ++ dPref x.pref
    ++ dValueType x.value_data_type ++ dTypeParam x.type_param
    ++ ":" ++ x.value ++ crlf

/-- Generated Display for Tz. -/
def Tz.display (x : Tz) : String :=
  grpName x.group "TZ" ++ dAltid x.altid ++ dPid x.pid ++ dPref x.pref
    ++ dValueType x.value_data_type ++ dTypeParam x.type_param
    ++ dMediatype x.mediatype ++ ":" ++ x.value ++ crlf

/-- Generated Display for Geo. -/
def Geo.display (x : Geo) : String :=
  grpName x.group "GEO" ++ dAltid x.altid ++ dPid x.pid ++ dPref x.pref
    ++ dValueType x.value_data_type ++ dTypeParam x.type_param
    ++ dMediatype x.mediatype ++ ":" ++ x.value ++ crlf

/-- Generated Display for Title. -/
def Title.display (x : Title) : String :=
  grpName x.group "TITLE" ++ dAltid x.altid ++ dPid x.pid ++ dPref x.pref
    ++ dValueType x.value_data_type ++ dTypeParam x.type_param
    ++ dLanguage x.language ++ ":" ++ x.value ++ crlf

/-- Generated Display for Role. -/
def Role.display (x : Role) : String :=
  grpName x.group "ROLE" ++ dAltid x.altid ++ dPid x.pid ++ dPref x.pref
    ++ dValueType x.value_data_type ++ dTypeParam x.type_param
    ++ dLanguage x.language ++ ":" ++ x.value ++ crlf

/-- Generated Display for Logo. -/
def Logo.display (x : Logo) : String :=
  grpName x.group "LOGO" ++ dAltid x.altid ++ dPid x.pid ++ dPref x.pref
    ++ dValueType x.value_data_type ++ dTypeParam x.type_param
    ++ dLanguage x.language ++ dMediatype x.mediatype ++ ":" ++ x.value ++ crlf

/-- Generated Display for Org: the organisational units are rejoined with
semicolons. -/
def Org.display (x : Org) : String :=
  grpName x.group "ORG" ++ dAltid x.altid ++ dPid x.pid ++ dPref x.pref
    ++ dValueType x.value_data_type ++ dTypeParam x.type_param
    ++ dLanguage x.language ++ dSortAs x.sort_as
    ++ ":" ++ String.intercalate ";" x.value ++ crlf

/-- Generated Display for Member. -/
def Member.display (x : Member) : String :=
  grpName x.group "MEMBER" ++ dAltid x.altid ++ dPid x.pid ++ dPref x.pref
    ++ dMediatype x.mediatype ++ ":" ++ x.value ++ crlf

/-- Generated Display for Related. -/
def Related.display (x : Related) : String :=
  grpName x.group "RELATED" ++ dAltid x.altid ++ dPid x.pid ++ dPref x.pref
    ++ dValueType x.value_data_type ++ dTypeParam x.type_param
    ++ dLanguage x.language ++ dMediatype x.mediatype ++ ":" ++ x.value ++ crlf

/-- Generated Display for Categories: rejoined with commas. -/
def Categories.display (x : Categories) : String :=
  grpName x.group "CATEGORIES" ++ dAltid x.altid ++ dPid x.pid ++ dPref x.pref
    ++ dValueType x.value_data_type ++ dTypeParam x.type_param
    ++ ":" ++ String.intercalate "," x.value ++ crlf

/-- Generated Display for Note. -/
def Note.display (x : Note) : String :=
  grpName x.group "NOTE" ++ dAltid x.altid ++ dPid x.pid ++ dPref x.pref
    ++ dValueType x.value_data_type ++ dTypeParam x.type_param
    ++ dLanguage x.language ++ ":" ++ x.value ++ crlf

/-- Generated Display for ProdId. -/
def ProdId.display (x : ProdId) : String :=
  grpName x.group "PRODID" ++ ":" ++ x.value ++ crlf

/-- Generated Display for Rev. -/
def Rev.display (x : Rev) : String :=
  grpName x.group "REV" ++ ":" ++ x.value ++ crlf

/-- Generated Display for Sound. -/
def Sound.display (x : Sound) : String :=
  grpName x.group "SOUND" ++ dAltid x.altid ++ dPid x.pid ++ dPref x.pref
    ++ dValueType x.value_data_type ++ dTypeParam x.type_param
    ++ dLanguage x.language ++ dMediatype x.mediatype ++ ":" ++ x.value ++ crlf

/-- Generated Display for Uid. -/
def Uid.display (x : Uid) : String :=
  grpName x.group "UID" ++ dValueType x.value_data_type ++ ":" ++ x.value ++ crlf

/-- Generated Display for ClientPidMap: the pid_digit field matches no macro
arm, so only the mapped value is written. -/
def ClientPidMap.display (x : ClientPidMap) : String :=
  grpName x.group "CLIENTPIDMAP" ++ ":" ++ x.value ++ crlf

/-- Generated Display for VcardURL: the uppercased struct name is VCARDURL,
not URL. -/
def VcardURL.display (x : VcardURL) : String :=
  grpName x.group "VCARDURL" ++ dAltid x.altid ++ dPid x.pid ++ dPref x.pref
    ++ dValueType x.value_data_type ++ dTypeParam x.type_param
    ++ dMediatype x.mediatype ++ ":" ++ x.value ++ crlf

/-- Generated Display for FbURL. -/
def FbURL.display (x : FbURL) : String :=
  grpName x.group "FBURL" ++ dAltid x.altid ++ dPid x.pid ++ dPref x.pref
    ++ dValueType x.value_data_type ++ dTypeParam x.type_param
    ++ dMediatype x.mediatype ++ ":" ++ x.value ++ crlf

/-- Generated Display for CalAdURI. -/
def CalAdURI.display (x : CalAdURI) : String :=
  grpName x.group "CALADURI" ++ dAltid x.altid ++ dPid x.pid ++ dPref x.pref
    ++ dValueType x.value_data_type ++ dTypeParam x.type_param
    ++ dMediatype x.mediatype ++ ":" ++ x.value ++ crlf

/-- Generated Display for CalURI. -/
def CalURI.display (x : CalURI) : String :=
  grpName x.group "CALURI" ++ dAltid x.altid ++ dPid x.pid ++ dPref x.pref
    ++ dValueType x.value_data_type ++ dTypeParam x.type_param
    ++ dMediatype x.mediatype ++ ":" ++ x.value ++ crlf

/-- Generated Display for Key. -/
def Key.display (x : Key) : String :=
  grpName x.group "KEY" ++ dAltid x.altid ++ dPid x.pid ++ dPref x.pref
    ++ dValueType x.value_data_type ++ dTypeParam x.type_param
    ++ dMediatype x.mediatype ++ ":" ++ x.value ++ crlf

/-- Generated Display for Xml. -/
def Xml.display (x : Xml) : String :=
  grpName x.group "XML" ++ dAltid x.altid ++ ":" ++ x.value ++ crlf

/-- Handwritten Display for ProprietaryProperty (models/model.rs): group,
name, one fragment per stored parameter, then the value. -/
def ProprietaryProperty.display (x : ProprietaryProperty) : String :=
  grpName x.group x.name
    ++ String.join (x.parameters.map (fun p => ";" ++ p.display))
    ++ ":" ++ x.value ++ crlf

/-- Display of an AltIDContainer: each member in insertion order. -/
def AltIDContainer.display {T : Type} (f : T → String) (c : AltIDContainer T) : String :=
  String.join (c.items.map f)

/-- Display of a MultiAltIDContainer: each bucket in iteration order. -/
def MultiAltIDContainer.display {T : Type} (f : T → String)
    (m : MultiAltIDContainer T) : String :=
  String.join (m.buckets.map (fun p => p.2.display f))

/-- Mirror of the VCard aggregate (models/model.rs), fields in source
order. -/
structure VCard where
  version : Version := ⟨.v4⟩
  source : MultiAltIDContainer Source := ⟨[]⟩
  kind : Option Kind := none
  xml : MultiAltIDContainer Xml := ⟨[]⟩
  fn_property : MultiAltIDContainer FN := ⟨[]⟩
  n : AltIDContainer N := ⟨[]⟩
  nickname : MultiAltIDContainer Nickname := ⟨[]⟩
  photo : MultiAltIDContainer Photo := ⟨[]⟩
  bday : AltIDContainer BDay := ⟨[]⟩
  anniversary : AltIDContainer Anniversary := ⟨[]⟩
  gender : Option Gender := none
  adr : MultiAltIDContainer Adr := ⟨[]⟩
  tel : MultiAltIDContainer Tel := ⟨[]⟩
  email : MultiAltIDContainer Email := ⟨[]⟩
  impp : MultiAltIDContainer Impp := ⟨[]⟩
  lang : MultiAltIDContainer Lang := ⟨[]⟩
  tz : MultiAltIDContainer Tz := ⟨[]⟩
  geo : MultiAltIDContainer Geo := ⟨[]⟩
  title : MultiAltIDContainer Title := ⟨[]⟩
  role : MultiAltIDContainer Role := ⟨[]⟩
  logo : MultiAltIDContainer Logo := ⟨[]⟩
  org : MultiAltIDContainer Org := ⟨[]⟩
  member : MultiAltIDContainer Member := ⟨[]⟩
  related : MultiAltIDContainer Related := ⟨[]⟩
  categories : MultiAltIDContainer Categories := ⟨[]⟩
  note : MultiAltIDContainer Note := ⟨[]⟩
  prodid : Option ProdId := none
  rev : Option Rev := none
  sound : MultiAltIDContainer Sound := ⟨[]⟩
  uid : Option Uid := none
  clientpidmap : Option ClientPidMap := none
  url : MultiAltIDContainer VcardURL := ⟨[]⟩
  key : MultiAltIDContainer Key := ⟨[]⟩
  fburl : MultiAltIDContainer FbURL := ⟨[]⟩
  caluri : MultiAltIDContainer CalURI := ⟨[]⟩
  caladuri : MultiAltIDContainer CalAdURI := ⟨[]⟩
  proprietary_properties : List ProprietaryProperty := []
deriving DecidableEq

/-- The optional-singleton fragment of the VCard Display code. -/
def dOpt {T : Type} (f : T → String) : Option T → String
  | some x => f x
  | none => ""

/-- Mirror of the VCard Display implementation (models/model.rs): BEGIN,
VERSION, every container and singleton in the source's write order, END. -/
def VCard.display (v : VCard) : String :=
  "BEGIN:VCARD" ++ crlf
    ++ v.version.display
    ++ v.source.display Source.display
    ++ dOpt Kind.display v.kind
    ++ v.xml.display Xml.display
    ++ v.fn_property.display FN.display
    ++ v.n.display N.display
    ++ v.nickname.display Nickname.display
    ++ v.photo.display Photo.display
    ++ v.bday.display BDay.display
    ++ v.anniversary.display Anniversary.display
    ++ dOpt Gender.display v.gender
    ++ v.adr.display Adr.display
    ++ v.tel.display Tel.display
    ++ v.email.display Email.display
    ++ v.impp.display Impp.display
    ++ v.lang.display Lang.display
    ++ v.tz.display Tz.display
    ++ v.geo.display Geo.display
    ++ v.title.display Title.display
    ++ v.role.display Role.display
    ++ v.logo.display Logo.display
    ++ v.org.display Org.display
    ++ v.member.display Member.display
    ++ v.related.display Related.display
    ++ v.categories.display Categories.display
    ++ v.note.display Note.display
    ++ dOpt ProdId.display v.prodid
    ++ dOpt Rev.display v.rev
    ++ dOpt Uid.display v.uid
    ++ dOpt ClientPidMap.display v.clientpidmap
    ++ v.sound.display Sound.display
    ++ v.url.display VcardURL.display
    ++ v.key.display Key.display
    ++ v.fburl.display FbURL.display
    ++ v.caluri.display CalURI.display
    ++ v.caladuri.display CalAdURI.display
    ++ String.join (v.proprietary_properties.map ProprietaryProperty.display)
    ++ "END:VCARD" ++ crlf

/-! The reader (reader.rs).  The byte source plus the two-byte pushback
buffer collapse to one list of characters: returning bytes is prepending
them.  The reader state carries the remaining stream and the persistent
discard buffer (the scratch buffer is never cleared between discards, so it
keeps growing and its length counts against the line limit, exactly as in the
source). -/

/-- Outcome of read_physical_line: the filled buffer and the remaining stream,
an unexpected end of stream (with the buffer filled so far), or the length
guard firing. -/
inductive PhysRes where
  | okLine (buf : List Char) (rest : List Char)
  | eofLine (buf : List Char)
  | tooLong
deriving DecidableEq

/-- Mirror of read_physical_line: before each byte the buffered length is
checked against the limit; CR followed by LF terminates the line; CR followed
by any other byte drops the CR and keeps the byte; end of stream surfaces the
unexpected-eof error. -/
def read_physical_line (maxLen : Nat) (buf : List Char) (input : List Char) : PhysRes :=
  if buf.length > maxLen then .tooLong
  else
    match input with
    | [] => .eofLine buf
    | c :: rest =>
      if c = '\r' then
        match rest with
        | [] => .eofLine buf
        | c2 :: rest2 =>
          if c2 = '\n' then .okLine buf rest2
          else read_physical_line maxLen (buf ++ [c2]) rest2
      else read_physical_line maxLen (buf ++ [c]) rest
termination_by input.length
decreasing_by
  · simp; omega
  · simp

/-- Mirror of the LineInspection outcomes. -/
inductive LineInspection where
  | noMoreContent | discard | logicalLine | newProperty
deriving DecidableEq

/-- Mirror of inspect_next_line: read two bytes ahead (an unexpected end of
stream means no more content, consuming what was read); a non-fold first byte
returns both bytes and announces the next property; a fold byte followed by
whitespace, CR or LF returns both bytes and asks for a discard; otherwise the
fold byte is dropped, the second byte is returned, and the line continues. -/
def inspect_next_line : List Char → LineInspection × List Char
  | [] => (.noMoreContent, [])
  | [_] => (.noMoreContent, [])
  | b0 :: b1 :: rest =>
    if b0 ≠ ' ' ∧ b0 ≠ '\t' then (.newProperty, b0 :: b1 :: rest)
    else if b1 = ' ' ∨ b1 = '\t' ∨ b1 = '\n' ∨ b1 = '\r' then
      (.discard, b0 :: b1 :: rest)
    else (.logicalLine, b1 :: rest)

/-- Reader state: the remaining stream and the persistent discard buffer. -/
structure ReaderState where
  input : List Char
  discard_buf : List Char
deriving DecidableEq

/-- Bounded-length auxiliary form of read_physical_line_rest_lt. -/
theorem read_physical_line_rest_lt_aux (maxLen : Nat) :
    ∀ (n : Nat) (input buf b rest : List Char), input.length ≤ n →
      read_physical_line maxLen buf input = .okLine b rest →
      rest.length < input.length := by
  intro n
  induction n with
  | zero =>
    intro input buf b rest hlen h
    match input with
    | [] =>
      rw [read_physical_line.eq_def] at h
      split at h <;> simp at h
    | c :: tl => simp at hlen
  | succ n ih =>
    intro input buf b rest hlen h
    rw [read_physical_line.eq_def] at h
    split at h
    · cases h
    · match input, hlen, h with
      | [], _, h => simp at h
      | c :: tl, hlen, h =>
        simp only at h
        split at h
        · match tl, hlen, h with
          | [], _, h => simp at h
          | c2 :: tl2, hlen, h =>
            simp only at h
            split at h
            · simp only [PhysRes.okLine.injEq] at h
              rw [← h.2]
              simp
              omega
            · have hl2 : tl2.length ≤ n := by simp at hlen; omega
              have := ih tl2 (buf ++ [c2]) b rest hl2 h
              simp
              omega
        · have hl : tl.length ≤ n := by simp at hlen; omega
          have := ih tl (buf ++ [c]) b rest hl h
          simp
          omega

/-- On success, read_physical_line has consumed at least the terminating
CRLF, so the remaining stream is strictly shorter. -/
theorem read_physical_line_rest_lt (maxLen : Nat) (buf input b rest : List Char)
    (h : read_physical_line maxLen buf input = .okLine b rest) :
    rest.length < input.length :=
  read_physical_line_rest_lt_aux maxLen input.length input buf b rest le_rfl h

/-- The stream returned in the discard case is the whole input. -/
theorem inspect_discard_eq {input s : List Char}
    (h : inspect_next_line input = (.discard, s)) : s = input := by
  match input with
  | [] => simp [inspect_next_line] at h
  | [x] => simp [inspect_next_line] at h
  | b0 :: b1 :: rest =>
    simp only [inspect_next_line] at h
    split at h
    · simp_all
    · split at h <;> simp_all

/-- The stream returned in the continuation case dropped exactly the fold
marker. -/
theorem inspect_logical_lt {input s : List Char}
    (h : inspect_next_line input = (.logicalLine, s)) :
    s.length < input.length := by
  match input with
  | [] => simp [inspect_next_line] at h
  | [x] => simp [inspect_next_line] at h
  | b0 :: b1 :: rest =>
    simp only [inspect_next_line] at h
    split at h
    · simp_all
    · split at h
      · simp_all
      · simp only [Prod.mk.injEq] at h
        rw [← h.2]
        simp

/-- The loop of read_logical_line after the first physical line: a new
property or the end of content finishes the logical line with the more flag;
a malformed continuation discards one whole physical line into the persistent
discard buffer; a proper continuation appends the next physical line to the
logical buffer.  Errors from the physical reads propagate unchanged (the
END:VCARD tolerance applies only to the first physical line). -/
def logicalLoop (maxLen : Nat) (buf input dbuf : List Char) :
    Except VCardError ((String × Bool) × ReaderState) :=
  match hI : inspect_next_line input with
  | (.newProperty, s) => .ok ((⟨buf⟩, true), ⟨s, dbuf⟩)
  | (.noMoreContent, s) => .ok ((⟨buf⟩, false), ⟨s, dbuf⟩)
  | (.discard, s) =>
    match hP : read_physical_line maxLen dbuf s with
    | .okLine d rest => logicalLoop maxLen buf rest d
    | .eofLine _ => .error .ioUnexpectedEof
    | .tooLong => .error (.maxLineLengthExceeded maxLen)
  | (.logicalLine, s) =>
    match hP : read_physical_line maxLen buf s with
    | .okLine b rest => logicalLoop maxLen b rest dbuf
    | .eofLine _ => .error .ioUnexpectedEof
    | .tooLong => .error (.maxLineLengthExceeded maxLen)
termination_by input.length
decreasing_by
  · have h1 : s.length = input.length := by rw [inspect_discard_eq hI]
    have h2 := read_physical_line_rest_lt maxLen dbuf s _ rest hP
    omega
  · have h1 := inspect_logical_lt hI
    have h2 := read_physical_line_rest_lt maxLen buf s _ rest hP
    omega

/-- Mirror of read_logical_line: read the first physical line (tolerating a
missing final CRLF only when the buffered content is exactly END:VCARD), then
run the continuation loop. -/
def read_logical_line (maxLen : Nat) (st : ReaderState) :
    Except VCardError ((String × Bool) × ReaderState) :=
  match read_physical_line maxLen [] st.input with
  | .tooLong => .error (.maxLineLengthExceeded maxLen)
  | .eofLine buf =>
    if buf = "END:VCARD".data then logicalLoop maxLen buf [] st.discard_buf
    else .error .ioUnexpectedEof
  | .okLine buf rest => logicalLoop maxLen buf rest st.discard_buf

/-- Mirror of read_property: a logical line decoded by Property::from_str,
paired with the more-content flag. -/
def read_property (maxLen : Nat) (st : ReaderState) :
    Except VCardError ((Property × Bool) × ReaderState) :=
  (read_logical_line maxLen st).bind fun x =>
    (Property.from_str x.1.1).map (fun p => ((p, x.1.2), x.2))

/-- The stream handed back by inspect_next_line is never longer than its
input. -/
theorem inspect_next_line_le (input : List Char) :
    (inspect_next_line input).2.length ≤ input.length := by
  match input with
  | [] => simp [inspect_next_line]
  | [c] => simp [inspect_next_line]
  | c0 :: c1 :: tl =>
    simp only [inspect_next_line]
    split
    · simp
    · split <;> simp

/-- Bounded-length auxiliary form of logicalLoop_input_le. -/
theorem logicalLoop_input_le_aux (maxLen : Nat) :
    ∀ (n : Nat) (input buf dbuf : List Char) (x : (String × Bool) × ReaderState),
      input.length ≤ n →
      logicalLoop maxLen buf input dbuf = .ok x →
      x.2.input.length ≤ input.length := by
  intro n
  induction n with
  | zero =>
    intro input buf dbuf x hlen h
    match input with
    | [] =>
      rw [logicalLoop.eq_def] at h
      simp [inspect_next_line] at h
      rw [← h]
    | c :: tl => simp at hlen
  | succ n ih =>
    intro input buf dbuf x hlen h
    rw [logicalLoop.eq_def] at h
    split at h
    · rename_i s hI
      cases h
      have := inspect_next_line_le input
      rw [hI] at this
      exact this
    · rename_i s hI
      cases h
      have := inspect_next_line_le input
      rw [hI] at this
      exact this
    · rename_i s hI
      split at h
      · rename_i d rest hP
        have h1 : s.length = input.length := by rw [inspect_discard_eq hI]
        have h2 := read_physical_line_rest_lt maxLen dbuf s _ rest hP
        have h3 := ih rest buf d x (by omega) h
        omega
      · cases h
      · cases h
    · rename_i s hI
      split at h
      · rename_i b rest hP
        have h1 := inspect_logical_lt hI
        have h2 := read_physical_line_rest_lt maxLen buf s _ rest hP
        have h3 := ih rest b dbuf x (by omega) h
        omega
      · cases h
      · cases h

/-- The continuation loop never lengthens the stream. -/
theorem logicalLoop_input_le (maxLen : Nat) (input buf dbuf : List Char)
    (x : (String × Bool) × ReaderState)
    (h : logicalLoop maxLen buf input dbuf = .ok x) :
    x.2.input.length ≤ input.length :=
  logicalLoop_input_le_aux maxLen input.length input buf dbuf x le_rfl h

/-- A successful logical-line read always consumes input. -/
theorem read_logical_line_input_lt (maxLen : Nat) (st : ReaderState)
    (x : (String × Bool) × ReaderState)
    (h : read_logical_line maxLen st = .ok x) :
    x.2.input.length < st.input.length := by
  rw [read_logical_line] at h
  split at h
  · cases h
  · rename_i buf hP
    split at h
    · rename_i hEnd
      have h1 := logicalLoop_input_le maxLen [] buf st.discard_buf x h
      simp only [List.length_nil, Nat.le_zero] at h1
      match hin : st.input with
      | [] =>
        rw [hin] at hP
        rw [read_physical_line.eq_def] at hP
        split at hP
        · cases hP
        · simp only [PhysRes.eofLine.injEq] at hP
          rw [← hP] at hEnd
          exact absurd hEnd (by decide)
      | c :: tl =>
        simp only [List.length_cons]
        omega
    · cases h
  · rename_i buf rest hP
    have h1 := logicalLoop_input_le maxLen rest buf st.discard_buf x h
    have h2 := read_physical_line_rest_lt maxLen [] st.input buf rest hP
    omega

/-- A successful property read always consumes input. -/
theorem read_property_input_lt (maxLen : Nat) (st : ReaderState)
    (x : (Property × Bool) × ReaderState)
    (h : read_property maxLen st = .ok x) :
    x.2.input.length < st.input.length := by
  rw [read_property] at h
  match hL : read_logical_line maxLen st with
  | .error e => rw [hL] at h; cases h
  | .ok y =>
    rw [hL] at h
    simp only [Except.bind] at h
    match hF : Property.from_str y.1.1 with
    | .error e => rw [hF] at h; cases h
    | .ok p =>
      rw [hF] at h
      simp only [Except.map] at h
      cases h
      exact read_logical_line_input_lt maxLen st y hL

/-- One Accumulating step of parse_vcard: fold a decoded property into the
aggregate, or terminate on END.  The result is inl on termination, inr to
continue.  Singleton fields use set-once semantics; the multi containers
route through MultiAltIDContainer::add_value (whose abort branch surfaces as
panicAbort); the alt-id containers propagate their mismatch errors. -/
def vcardStep (result : VCard) (prop : Property) (more : Bool) :
    Except VCardError (VCard ⊕ VCard) :=
  let liftM {T : Type} (o : Option T) (f : T → VCard) :
      Except VCardError (VCard ⊕ VCard) :=
    match o with
    | some c => .ok (.inr (f c))
    | none => .error .panicAbort
  let liftA {T : Type} (e : Except VCardError T) (f : T → VCard) :
      Except VCardError (VCard ⊕ VCard) :=
    match e with
    | .ok c => .ok (.inr (f c))
    | .error err => .error err
  let single {T : Type} (field : Option T) (v : T) (name : String)
      (f : Option T → VCard) : Except VCardError (VCard ⊕ VCard) :=
    match field with
    | some _ => .error (.invalidCardinality 1 name)
    | none => .ok (.inr (f (some v)))
  match prop with
  | .version _ => .error (.invalidCardinality 1 "VERSION")
  | .begin_prop _ => .error (.invalidCardinality 1 "BEGIN")
  | .end_prop value =>
    if value ≠ "VCARD" ∨ more then .error .invalidEndProperty
    else .ok (.inl result)
  | .source s => liftM (result.source.add_value s) (fun c => { result with source := c })
  | .kind k => single result.kind k "kind" (fun o => { result with kind := o })
  | .xml x => liftM (result.xml.add_value x) (fun c => { result with xml := c })
  | .fn_prop f => liftM (result.fn_property.add_value f)
      (fun c => { result with fn_property := c })
  | .n v => liftA (result.n.add_value v) (fun c => { result with n := c })
  | .nickName v => liftM (result.nickname.add_value v)
      (fun c => { result with nickname := c })
  | .photo v => liftM (result.photo.add_value v) (fun c => { result with photo := c })
  | .bday v => liftA (result.bday.add_value v) (fun c => { result with bday := c })
  | .anniversary v => liftA (result.anniversary.add_value v)
      (fun c => { result with anniversary := c })
  | .gender g => single result.gender g "gender" (fun o => { result with gender := o })
  | .adr v => liftM (result.adr.add_value v) (fun c => { result with adr := c })
  | .tel v => liftM (result.tel.add_value v) (fun c => { result with tel := c })
  | .email v => liftM (result.email.add_value v) (fun c => { result with email := c })
  | .impp v => liftM (result.impp.add_value v) (fun c => { result with impp := c })
  | .lang v => liftM (result.lang.add_value v) (fun c => { result with lang := c })
  | .tz v => liftM (result.tz.add_value v) (fun c => { result with tz := c })
  | .geo v => liftM (result.geo.add_value v) (fun c => { result with geo := c })
  | .title v => liftM (result.title.add_value v) (fun c => { result with title := c })
  | .role v => liftM (result.role.add_value v) (fun c => { result with role := c })
  | .logo v => liftM (result.logo.add_value v) (fun c => { result with logo := c })
  | .org v => liftM (result.org.add_value v) (fun c => { result with org := c })
  | .member v => liftM (result.member.add_value v) (fun c => { result with member := c })
  | .related v => liftM (result.related.add_value v)
      (fun c => { result with related := c })
  | .categories v => liftM (result.categories.add_value v)
      (fun c => { result with categories := c })
  | .note v => liftM (result.note.add_value v) (fun c => { result with note := c })
  | .prodId v => single result.prodid v "prodid" (fun o => { result with prodid := o })
  | .rev v => single result.rev v "rev" (fun o => { result with rev := o })
  | .sound v => liftM (result.sound.add_value v) (fun c => { result with sound := c })
  | .uid v => single result.uid v "uid" (fun o => { result with uid := o })
  | .clientPidMap v => single result.clientpidmap v "clientpidmap"
      (fun o => { result with clientpidmap := o })
  | .url v => liftM (result.url.add_value v) (fun c => { result with url := c })
  | .key v => liftM (result.key.add_value v) (fun c => { result with key := c })
  | .fbUrl v => liftM (result.fburl.add_value v) (fun c => { result with fburl := c })
  | .calUri v => liftM (result.caluri.add_value v)
      (fun c => { result with caluri := c })
  | .calAdUri v => liftM (result.caladuri.add_value v)
      (fun c => { result with caladuri := c })
  | .proprietary p => .ok (.inr { result with
      proprietary_properties := result.proprietary_properties ++ [p] })

/-- The Accumulating loop of parse_vcard. -/
def parse_vcard_go (maxLen : Nat) (result : VCard) (st : ReaderState) :
    Except VCardError VCard :=
  match hR : read_property maxLen st with
  | .error e => .error e
  | .ok ((prop, more), st1) =>
    match vcardStep result prop more with
    | .error e => .error e
    | .ok (.inl v) => .ok v
    | .ok (.inr v) => parse_vcard_go maxLen v st1
termination_by st.input.length
decreasing_by
  exact read_property_input_lt maxLen st ((prop, more), st1) hR

/-- Mirror of VCardReader::parse_vcard: the first property must be
BEGIN:VCARD with more content following, the second must be VERSION with more
content following, and the Accumulating loop folds the rest into an initially
default aggregate carrying the read version. -/
def parse_vcard (maxLen : Nat) (st : ReaderState) : Except VCardError VCard :=
  (read_property maxLen st).bind fun x =>
    let prop := x.1.1
    let more := x.1.2
    let st1 := x.2
    match prop with
    | .begin_prop value =>
      if value ≠ "VCARD" then .error .invalidBeginProperty
      else if !more then .error .invalidVersionProperty
      else
        (read_property maxLen st1).bind fun y =>
          match y.1.1 with
          | .version v =>
            if !y.1.2 then .error .invalidEndProperty
            else parse_vcard_go maxLen { version := v } y.2
          | _ => .error .invalidVersionProperty
    | _ => .error .invalidBeginProperty

/-- A fresh reader over a byte stream (VCardReader::new semantics: empty
pushback, empty discard buffer, default line limit held separately). -/
def readerOf (s : String) : ReaderState := ⟨s.data, []⟩

/-! Helper lemmas describing the tokenizer on parameterless group-free
lines. -/

/-- takeWhile runs through a block that satisfies the test wholesale. -/
theorem takeWhile_append_all {α : Type} (p : α → Bool) (l1 l2 : List α)
    (h : ∀ c ∈ l1, p c = true) :
    (l1 ++ l2).takeWhile p = l1 ++ l2.takeWhile p := by
  induction l1 with
  | nil => simp
  | cons c l1 ih =>
    rw [List.cons_append, List.takeWhile_cons, h c (by simp),
      ih (fun x hx => h x (by simp [hx]))]
    simp

/-- takeWhile keeps a list none of whose elements fail the test. -/
theorem takeWhile_eq_self_of_all {α : Type} (p : α → Bool) (l : List α)
    (h : ∀ c ∈ l, p c = true) : l.takeWhile p = l := by
  have := takeWhile_append_all p l [] h
  simpa using this

/-- The greedy length candidates unfold from the top. -/
theorem descLens_succ (n : Nat) : descLens (n + 1) = (n + 1) :: descLens n := by
  simp [descLens, List.range_succ]

/-- Every greedy length candidate is positive and bounded. -/
theorem mem_descLens {m n : Nat} (h : m ∈ descLens n) : 1 ≤ m ∧ m ≤ n := by
  simp only [descLens, List.mem_map, List.mem_reverse, List.mem_range] at h
  obtain ⟨k, hk, rfl⟩ := h
  omega

/-- On a parameterless group-free line the pattern matches at position zero
with no group, the whole name, no parameters and the whole value. -/
theorem matchAtPos_noparam (name v : List Char)
    (h1 : name ≠ [])
    (h2 : ∀ c ∈ name, isNameChar c = true)
    (h3 : '.' ∉ name)
    (hv : '\n' ∉ v) :
    matchAtPos (name ++ ':' :: v) = some ⟨none, name, none, v⟩ := by
  have hrun : (name ++ ':' :: v).takeWhile isNameChar = name := by
    rw [takeWhile_append_all isNameChar name (':' :: v) h2]
    simp [List.takeWhile_cons, isNameChar]
  have hCands : ((descLens (name.length - 1)).filter
      (fun m => (name ++ ':' :: v).get? m = some '.')) = [] := by
    rw [List.filter_eq_nil]
    intro m hm
    have hb := mem_descLens hm
    have hlt : m < name.length := by omega
    rw [List.get?_append hlt]
    simp only [decide_eq_true_eq]
    intro hgm
    exact h3 (List.get?_mem hgm)
  have hdrop : (name ++ ':' :: v).drop name.length = ':' :: v := List.drop_left name _
  have htake : (name ++ ':' :: v).take name.length = name := List.take_left name _
  have hvt : v.takeWhile (fun x => x ≠ '\n') = v := by
    apply takeWhile_eq_self_of_all
    intro c hc
    simp only [decide_eq_true_eq]
    intro heq
    exact hv (heq ▸ hc)
  have hd : descLens name.length = name.length :: descLens (name.length - 1) := by
    match hnl : name.length with
    | 0 =>
      exfalso
      exact h1 (List.length_eq_zero.mp hnl)
    | k + 1 =>
      rw [descLens_succ]
      simp
  have hstar : starColon ((name ++ ':' :: v).length + 1) none (':' :: v)
      = some (none, v) := by
    simp only [starColon, hvt]
    simp
  simp only [matchAtPos, hrun, hCands, List.findSome?_nil, Option.none_orElse,
    matchAtBody, hd, List.findSome?_cons, hdrop, htake, hstar, Option.map_some]
  rfl

/-- On a parameterless group-free line the regex search succeeds at the very
first start position. -/
theorem findCaptures_noparam (name v : List Char)
    (h1 : name ≠ [])
    (h2 : ∀ c ∈ name, isNameChar c = true)
    (h3 : '.' ∉ name)
    (hv : '\n' ∉ v) :
    findCaptures (name ++ ':' :: v) = some ⟨none, name, none, v⟩ := by
  have hm := matchAtPos_noparam name v h1 h2 h3 hv
  cases name with
  | nil => exact absurd rfl h1
  | cons n0 ntl =>
    rw [List.cons_append]
    rw [findCaptures]
    rw [← List.cons_append, hm]
    rfl

/-- split_once finds the first separator. -/
theorem splitOnce_append (s t : List Char) (hs : ';' ∉ s) :
    splitOnce ';' (s ++ ';' :: t) = some (s, t) := by
  induction s with
  | nil => simp [splitOnce]
  | cons c s ih =>
    have hcne : c ≠ ';' := fun hc => hs (by simp [hc])
    rw [List.cons_append, splitOnce]
    rw [if_neg hcne, ih (fun hx => hs (by simp [hx]))]
    rfl

/-- split_once finds nothing without a separator. -/
theorem splitOnce_none (s : List Char) (hs : ';' ∉ s) :
    splitOnce ';' s = none := by
  induction s with
  | nil => rfl
  | cons c s ih =>
    have hcne : c ≠ ';' := fun hc => hs (by simp [hc])
    rw [splitOnce, if_neg hcne, ih (fun hx => hs (by simp [hx]))]
    rfl

/-- The empty-dropping filter never lets an empty string through. -/
theorem filter_and_transform_no_empty (l : List String) :
    "" ∉ l.filterMap filter_and_transform := by
  intro h
  obtain ⟨a, _, ha⟩ := List.mem_filterMap.mp h
  by_cases he : a.data.isEmpty
  · simp [filter_and_transform, he] at ha
  · simp only [filter_and_transform, if_neg he, Option.some.injEq] at ha
    rw [ha] at he
    exact he rfl

/-! Helper lemmas describing the reader on well-shaped streams. -/

/-- Reading a CR-free segment terminated by CRLF fills the buffer with the
segment when the limit allows it, and trips the length guard otherwise. -/
theorem read_physical_line_clean (maxLen : Nat) (s : List Char) :
    ∀ (buf r : List Char), (∀ c ∈ s, c ≠ '\r') →
      read_physical_line maxLen buf (s ++ '\r' :: '\n' :: r)
        = if buf.length + s.length ≤ maxLen then .okLine (buf ++ s) r
          else .tooLong := by
  induction s with
  | nil =>
    intro buf r _
    rw [read_physical_line.eq_def]
    simp only [List.nil_append, List.length_nil, Nat.add_zero, List.append_nil]
    by_cases hgt : buf.length > maxLen
    · rw [if_pos hgt]
      have h2 : ¬(buf.length ≤ maxLen) := by omega
      rw [if_neg h2]
    · rw [if_neg hgt]
      have h2 : buf.length ≤ maxLen := by omega
      rw [if_pos h2]
      simp
  | cons c s ih =>
    intro buf r hs
    have hc : c ≠ '\r' := hs c (by simp)
    rw [List.cons_append, read_physical_line.eq_def]
    simp only [List.length_cons]
    by_cases hgt : buf.length > maxLen
    · rw [if_pos hgt]
      have h2 : ¬(buf.length + (s.length + 1) ≤ maxLen) := by omega
      rw [if_neg h2]
    · rw [if_neg hgt]
      simp only [if_neg hc]
      rw [ih (buf ++ [c]) r (fun x hx => hs x (by simp [hx]))]
      simp only [List.length_append, List.length_singleton, List.append_assoc,
        List.singleton_append]
      have h3 : buf.length + 1 + s.length = buf.length + (s.length + 1) := by omega
      rw [h3]

/-- Reading a CR-free segment that ends the stream reports the unexpected end
of stream with the buffer filled so far, unless the limit trips first. -/
theorem read_physical_line_eof (maxLen : Nat) (s : List Char) :
    ∀ (buf : List Char), (∀ c ∈ s, c ≠ '\r') →
      read_physical_line maxLen buf s
        = if buf.length + s.length ≤ maxLen then .eofLine (buf ++ s)
          else .tooLong := by
  induction s with
  | nil =>
    intro buf _
    rw [read_physical_line.eq_def]
    simp only [List.length_nil, Nat.add_zero, List.append_nil]
    by_cases hgt : buf.length > maxLen
    · rw [if_pos hgt]
      have h2 : ¬(buf.length ≤ maxLen) := by omega
      rw [if_neg h2]
    · rw [if_neg hgt]
      have h2 : buf.length ≤ maxLen := by omega
      rw [if_pos h2]
  | cons c s ih =>
    intro buf hs
    have hc : c ≠ '\r' := hs c (by simp)
    rw [read_physical_line.eq_def]
    simp only [List.length_cons]
    by_cases hgt : buf.length > maxLen
    · rw [if_pos hgt]
      have h2 : ¬(buf.length + (s.length + 1) ≤ maxLen) := by omega
      rw [if_neg h2]
    · rw [if_neg hgt]
      simp only [if_neg hc]
      rw [ih (buf ++ [c]) (fun x hx => hs x (by simp [hx]))]
      simp only [List.length_append, List.length_singleton, List.append_assoc,
        List.singleton_append]
      have h3 : buf.length + 1 + s.length = buf.length + (s.length + 1) := by omega
      rw [h3]

/-- Unfolds logicalLoop when the next two bytes open a new property. -/
theorem logicalLoop_newProperty (maxLen : Nat) (buf input dbuf s : List Char)
    (h : inspect_next_line input = (.newProperty, s)) :
    logicalLoop maxLen buf input dbuf = .ok ((⟨buf⟩, true), ⟨s, dbuf⟩) := by
  rw [logicalLoop.eq_def]
  split <;> rename_i s' hI <;> rw [h] at hI <;>
    first
    | (cases hI; rfl)
    | (cases hI)

/-- Unfolds logicalLoop at the end of the stream content. -/
theorem logicalLoop_noMore (maxLen : Nat) (buf input dbuf s : List Char)
    (h : inspect_next_line input = (.noMoreContent, s)) :
    logicalLoop maxLen buf input dbuf = .ok ((⟨buf⟩, false), ⟨s, dbuf⟩) := by
  rw [logicalLoop.eq_def]
  split <;> rename_i s' hI <;> rw [h] at hI <;>
    first
    | (cases hI; rfl)
    | (cases hI)

/-- Unfolds logicalLoop across one proper continuation read. -/
theorem logicalLoop_logical_ok (maxLen : Nat) (buf input dbuf s b rest : List Char)
    (h : inspect_next_line input = (.logicalLine, s))
    (hp : read_physical_line maxLen buf s = .okLine b rest) :
    logicalLoop maxLen buf input dbuf = logicalLoop maxLen b rest dbuf := by
  rw [logicalLoop.eq_def]
  split <;> rename_i s' hI <;> rw [h] at hI <;> try cases hI
  split <;> rename_i hP <;> rw [hp] at hP <;> cases hP
  rfl

/-- Unfolds logicalLoop across one discarded malformed continuation. -/
theorem logicalLoop_discard_ok (maxLen : Nat) (buf input dbuf s dd rest : List Char)
    (h : inspect_next_line input = (.discard, s))
    (hp : read_physical_line maxLen dbuf s = .okLine dd rest) :
    logicalLoop maxLen buf input dbuf = logicalLoop maxLen buf rest dd := by
  rw [logicalLoop.eq_def]
  split <;> rename_i s' hI <;> rw [h] at hI <;> try cases hI
  split <;> rename_i hP <;> rw [hp] at hP <;> cases hP
  rfl

/-- Unfolds logicalLoop when a continuation read trips the length guard. -/
theorem logicalLoop_logical_tooLong (maxLen : Nat) (buf input dbuf s : List Char)
    (h : inspect_next_line input = (.logicalLine, s))
    (hp : read_physical_line maxLen buf s = .tooLong) :
    logicalLoop maxLen buf input dbuf = .error (.maxLineLengthExceeded maxLen) := by
  rw [logicalLoop.eq_def]
  split <;> rename_i s' hI <;> rw [h] at hI <;> try cases hI
  split <;> rename_i hP <;> rw [hp] at hP <;> cases hP


/-- A folded byte stream: each continuation contributes its fold marker, its
content and a CRLF terminator, and the stream continues with tail. -/
def foldedTail : List (Char × List Char) → List Char → List Char
  | [], tail => tail
  | (m, s) :: rest, tail => m :: (s ++ '\r' :: '\n' :: foldedTail rest tail)

/-- Well-formed continuations: a space or tab marker, nonempty CR-free
content whose first character is not a fold character, CR or LF. -/
def GoodCont (p : Char × List Char) : Prop :=
  (p.1 = ' ' ∨ p.1 = '\t') ∧ p.2 ≠ [] ∧ '\r' ∉ p.2 ∧
    (∀ c0, p.2.head? = some c0 → ¬(c0 = ' ' ∨ c0 = '\t' ∨ c0 = '\n' ∨ c0 = '\r'))

instance (p : Char × List Char) : Decidable (GoodCont p) := by
  unfold GoodCont
  infer_instance

/-- Reading well-formed continuations appends exactly their contents to the
logical line, with the length guard firing exactly when the accumulated line
exceeds the limit. -/
theorem logicalLoop_folded (maxLen : Nat) (conts : List (Char × List Char)) :
    ∀ (buf tail dbuf : List Char),
      buf.length ≤ maxLen →
      (∀ p ∈ conts, GoodCont p) →
      logicalLoop maxLen buf (foldedTail conts tail) dbuf
        = if buf.length + ((conts.map Prod.snd).flatten).length ≤ maxLen
          then logicalLoop maxLen (buf ++ (conts.map Prod.snd).flatten) tail dbuf
          else .error (.maxLineLengthExceeded maxLen) := by
  induction conts with
  | nil =>
    intro buf tail dbuf hbuf _
    simp only [foldedTail, List.map_nil, List.flatten_nil, List.length_nil,
      Nat.add_zero, List.append_nil]
    rw [if_pos hbuf]
  | cons p rest ih =>
    intro buf tail dbuf hbuf hc
    obtain ⟨m, s⟩ := p
    have hgood := hc (m, s) (by simp)
    obtain ⟨hm, hne, hcr, hhead⟩ := hgood
    obtain ⟨c0, s', rfl⟩ : ∃ c0 s', s = c0 :: s' := by
      cases s with
      | nil => exact absurd rfl hne
      | cons a b => exact ⟨a, b, rfl⟩
    have hh := hhead c0 (by rfl)
    have hins : inspect_next_line (foldedTail ((m, c0 :: s') :: rest) tail)
        = (.logicalLine, (c0 :: s') ++ '\r' :: '\n' :: foldedTail rest tail) := by
      simp only [foldedTail, List.cons_append]
      rw [inspect_next_line]
      rw [if_neg (by
        rcases hm with h | h
        · rw [show m = ' ' from h]; simp
        · rw [show m = '\t' from h]; simp)]
      rw [if_neg hh]
    by_cases hlen : buf.length + (c0 :: s').length ≤ maxLen
    · have hphys := read_physical_line_clean maxLen (c0 :: s') buf
        (foldedTail rest tail) (fun c hx hq => hcr (hq ▸ hx))
      rw [if_pos hlen] at hphys
      rw [logicalLoop_logical_ok maxLen buf _ dbuf _ _ _ hins hphys]
      rw [ih (buf ++ (c0 :: s')) tail dbuf (by simp at hlen ⊢; omega)
        (fun q hq => hc q (by simp [hq]))]
      simp only [List.map_cons, List.flatten_cons, List.length_append,
        List.length_cons, List.append_assoc]
      have harith : buf.length + (s'.length + 1) + ((rest.map Prod.snd).flatten).length
          = buf.length + (s'.length + 1 + ((rest.map Prod.snd).flatten).length) := by
        omega
      rw [harith]
    · have hphys := read_physical_line_clean maxLen (c0 :: s') buf
        (foldedTail rest tail) (fun c hx hq => hcr (hq ▸ hx))
      rw [if_neg hlen] at hphys
      rw [logicalLoop_logical_tooLong maxLen buf _ dbuf _ hins hphys]
      rw [if_neg (by simp at hlen ⊢; omega)]


/-- The default logical line limit (reader.rs). -/
def DEFAULT_MAX_LINE_LENGTH : Nat := 5000

/-- Inspection announces a new property when the next byte is not a fold
character. -/
theorem inspect_newProperty (c0 c1 : Char) (rest : List Char)
    (h0 : c0 ≠ ' ') (h1 : c0 ≠ '\t') :
    inspect_next_line (c0 :: c1 :: rest) = (.newProperty, c0 :: c1 :: rest) := by
  rw [inspect_next_line, if_pos ⟨h0, h1⟩]

/-- Reading one clean CRLF-terminated line followed by a new property: the
line comes back with the more flag set and the stream at the next
property. -/
theorem read_logical_line_simple (maxLen : Nat) (s tail d : List Char)
    (hs : '\r' ∉ s) (hlen : s.length ≤ maxLen)
    (hinsp : inspect_next_line tail = (.newProperty, tail)) :
    read_logical_line maxLen ⟨s ++ '\r' :: '\n' :: tail, d⟩
      = .ok ((⟨s⟩, true), ⟨tail, d⟩) := by
  rw [read_logical_line]
  simp only []
  rw [read_physical_line_clean maxLen s [] tail (fun c hc hq => hs (hq ▸ hc))]
  simp only [List.length_nil, Nat.zero_add]
  rw [if_pos hlen]
  exact logicalLoop_newProperty maxLen s tail d _ hinsp

/-- Reading one clean CRLF-terminated final line: the line comes back with
the more flag cleared and the stream exhausted. -/
theorem read_logical_line_final (maxLen : Nat) (s d : List Char)
    (hs : '\r' ∉ s) (hlen : s.length ≤ maxLen) :
    read_logical_line maxLen ⟨s ++ ['\r', '\n'], d⟩
      = .ok ((⟨s⟩, false), ⟨[], d⟩) := by
  rw [read_logical_line]
  simp only []
  rw [show (s ++ ['\r', '\n'] : List Char) = s ++ '\r' :: '\n' :: [] from rfl]
  rw [read_physical_line_clean maxLen s [] [] (fun c hc hq => hs (hq ▸ hc))]
  simp only [List.length_nil, Nat.zero_add]
  rw [if_pos hlen]
  exact logicalLoop_noMore maxLen s [] d [] rfl

/-- read_property through read_logical_line_simple. -/
theorem read_property_simple (maxLen : Nat) (s tail d : List Char)
    (hs : '\r' ∉ s) (hlen : s.length ≤ maxLen)
    (hinsp : inspect_next_line tail = (.newProperty, tail)) :
    read_property maxLen ⟨s ++ '\r' :: '\n' :: tail, d⟩
      = (Property.from_str ⟨s⟩).map (fun p => ((p, true), ⟨tail, d⟩)) := by
  rw [read_property, read_logical_line_simple maxLen s tail d hs hlen hinsp]
  simp only [Except.bind]

/-- read_property through read_logical_line_final. -/
theorem read_property_final (maxLen : Nat) (s d : List Char)
    (hs : '\r' ∉ s) (hlen : s.length ≤ maxLen) :
    read_property maxLen ⟨s ++ ['\r', '\n'], d⟩
      = (Property.from_str ⟨s⟩).map (fun p => ((p, false), ⟨[], d⟩)) := by
  rw [read_property, read_logical_line_final maxLen s d hs hlen]
  simp only [Except.bind]

/-- One Accumulating step of the parse loop, given the next property read. -/
theorem parse_vcard_go_step (maxLen : Nat) (result : VCard) (st : ReaderState)
    (x : (Property × Bool) × ReaderState)
    (h : read_property maxLen st = .ok x) :
    parse_vcard_go maxLen result st
      = match vcardStep result x.1.1 x.1.2 with
        | .error e => .error e
        | .ok (.inl v) => .ok v
        | .ok (.inr v) => parse_vcard_go maxLen v x.2 := by
  rw [parse_vcard_go.eq_def]
  split
  · rename_i hR
    rw [h] at hR
    cases hR
  · rename_i prop more st1 hR
    rw [h] at hR
    cases hR
    rfl

/-! Helper lemmas about the preference loops of the containers. -/

/-- The strictly-smaller scan returns a member of minimal preference among
the seed and the scanned items. -/
theorem getPreferedLoop_spec {T : Type} [Preferable T] :
    ∀ (xs : List T) (p : T),
      ∃ m, getPreferedLoop (some p) xs = some m ∧ m ∈ p :: xs ∧
        ∀ y ∈ p :: xs, get_pref m ≤ get_pref y := by
  intro xs
  induction xs with
  | nil =>
    intro p
    exact ⟨p, rfl, by simp, by simp⟩
  | cons x xs ih =>
    intro p
    rw [getPreferedLoop]
    by_cases hcmp : get_pref p > get_pref x
    · rw [if_pos hcmp]
      obtain ⟨m, hm, hmem, hmin⟩ := ih x
      refine ⟨m, hm, ?_, ?_⟩
      · rcases List.mem_cons.mp hmem with h | h
        · simp [h]
        · simp [h]
      · intro y hy
        rcases List.mem_cons.mp hy with h | h
        · subst h
          have := hmin x (by simp)
          omega
        · exact hmin y h
    · rw [if_neg hcmp]
      obtain ⟨m, hm, hmem, hmin⟩ := ih p
      refine ⟨m, hm, ?_, ?_⟩
      · rcases List.mem_cons.mp hmem with h | h
        · simp [h]
        · simp [h]
      · intro y hy
        rcases List.mem_cons.mp hy with h | h
        · subst h
          exact hmin y (by simp)
        · rcases List.mem_cons.mp h with h2 | h2
          · subst h2
            have := hmin p (by simp)
            omega
          · exact hmin y (by simp [h2])

/-- The preferred member of a nonempty AltIDContainer exists, belongs to the
container and has minimal preference. -/
theorem altid_get_prefered_spec {T : Type} [Preferable T]
    (c : AltIDContainer T) (h : c.items ≠ []) :
    ∃ m, c.get_prefered_value = some m ∧ m ∈ c.items ∧
      ∀ y ∈ c.items, get_pref m ≤ get_pref y := by
  match hi : c.items with
  | [] => exact absurd hi h
  | i0 :: rest =>
    unfold AltIDContainer.get_prefered_value
    rw [hi, getPreferedLoop]
    exact getPreferedLoop_spec rest i0

/-- What a some result of AltIDContainer::get_prefered_value certifies. -/
theorem altid_get_prefered_of_some {T : Type} [Preferable T]
    (c : AltIDContainer T) (x : T) (h : c.get_prefered_value = some x) :
    x ∈ c.items ∧ ∀ y ∈ c.items, get_pref x ≤ get_pref y := by
  have hne : c.items ≠ [] := by
    intro hempty
    unfold AltIDContainer.get_prefered_value at h
    rw [hempty] at h
    cases h
  obtain ⟨m, hm, hmem, hmin⟩ := altid_get_prefered_spec c hne
  rw [h] at hm
  cases hm
  exact ⟨hmem, hmin⟩

/-- A none result of the scan means there was nothing to scan. -/
theorem altid_get_prefered_none {T : Type} [Preferable T]
    (c : AltIDContainer T) (h : c.get_prefered_value = none) :
    c.items = [] := by
  by_cases hi : c.items = []
  · exact hi
  · obtain ⟨m, hm, _, _⟩ := altid_get_prefered_spec c hi
    rw [h] at hm
    cases hm

/-- Unfold of prefStep on an empty bucket. -/
theorem prefStep_skip {T : Type} [Preferable T] (acc : Option T)
    (p : String × AltIDContainer T) (h : p.2.get_prefered_value = none) :
    prefStep acc p = acc := by
  unfold prefStep
  rw [h]

/-- Unfold of prefStep with no candidate yet. -/
theorem prefStep_seed {T : Type} [Preferable T]
    (p : String × AltIDContainer T) (cpi : T)
    (h : p.2.get_prefered_value = some cpi) :
    prefStep none p = some cpi := by
  unfold prefStep
  rw [h]

/-- Unfold of prefStep against an existing candidate. -/
theorem prefStep_cmp {T : Type} [Preferable T]
    (p : String × AltIDContainer T) (cpi pi : T)
    (h : p.2.get_prefered_value = some cpi) :
    prefStep (some pi) p
      = if get_pref pi > get_pref cpi then some cpi else some pi := by
  unfold prefStep
  rw [h]

/-- The bucket fold of MultiAltIDContainer::get_prefered_value: a some result
comes from the seed or from a bucket and is minimal against the seed and every
bucket member. -/
theorem multi_fold_spec {T : Type} [Preferable T] :
    ∀ (bs : List (String × AltIDContainer T)) (acc : Option T) (r : T),
      bs.foldl prefStep acc = some r →
      ((acc = some r ∨ ∃ pb ∈ bs, r ∈ pb.2.items) ∧
       (∀ a, acc = some a → get_pref r ≤ get_pref a) ∧
       (∀ pb ∈ bs, ∀ y ∈ pb.2.items, get_pref r ≤ get_pref y)) := by
  intro bs
  induction bs with
  | nil =>
    intro acc r h
    simp only [List.foldl_nil] at h
    refine ⟨Or.inl h, ?_, by simp⟩
    intro a ha
    rw [h] at ha
    cases ha
    exact le_refl _
  | cons pb bs ih =>
    intro acc r h
    rw [List.foldl_cons] at h
    match hb : pb.2.get_prefered_value with
    | none =>
      rw [prefStep_skip acc pb hb] at h
      have hempty := altid_get_prefered_none pb.2 hb
      obtain ⟨hmem, hacc, hbuck⟩ := ih acc r h
      refine ⟨?_, hacc, ?_⟩
      · rcases hmem with h1 | ⟨q, hq, hr⟩
        · exact Or.inl h1
        · exact Or.inr ⟨q, by simp [hq], hr⟩
      · intro q hq y hy
        rcases List.mem_cons.mp hq with h1 | h1
        · rw [h1, hempty] at hy
          cases hy
        · exact hbuck q h1 y hy
    | some cpi =>
      obtain ⟨hcmem, hcmin⟩ := altid_get_prefered_of_some pb.2 cpi hb
      rcases acc with _ | pi
      · rw [prefStep_seed pb cpi hb] at h
        obtain ⟨hmem, hacc, hbuck⟩ := ih (some cpi) r h
        refine ⟨?_, ?_, ?_⟩
        · rcases hmem with h1 | ⟨q, hq, hr⟩
          · cases h1
            exact Or.inr ⟨pb, by simp, hcmem⟩
          · exact Or.inr ⟨q, by simp [hq], hr⟩
        · intro a ha
          cases ha
        · intro q hq y hy
          rcases List.mem_cons.mp hq with h1 | h1
          · have h2 := hacc cpi rfl
            have h3 := hcmin y (h1 ▸ hy)
            omega
          · exact hbuck q h1 y hy
      · rw [prefStep_cmp pb cpi pi hb] at h
        by_cases hcmp : get_pref pi > get_pref cpi
        · rw [if_pos hcmp] at h
          obtain ⟨hmem, hacc, hbuck⟩ := ih (some cpi) r h
          have hrc := hacc cpi rfl
          refine ⟨?_, ?_, ?_⟩
          · rcases hmem with h1 | ⟨q, hq, hr⟩
            · cases h1
              exact Or.inr ⟨pb, by simp, hcmem⟩
            · exact Or.inr ⟨q, by simp [hq], hr⟩
          · intro a ha
            cases ha
            omega
          · intro q hq y hy
            rcases List.mem_cons.mp hq with h1 | h1
            · have h3 := hcmin y (h1 ▸ hy)
              omega
            · exact hbuck q h1 y hy
        · rw [if_neg hcmp] at h
          obtain ⟨hmem, hacc, hbuck⟩ := ih (some pi) r h
          have hrp := hacc pi rfl
          refine ⟨?_, ?_, ?_⟩
          · rcases hmem with h1 | ⟨q, hq, hr⟩
            · exact Or.inl h1
            · exact Or.inr ⟨q, by simp [hq], hr⟩
          · intro a ha
            cases ha
            exact hrp
          · intro q hq y hy
            rcases List.mem_cons.mp hq with h1 | h1
            · have h3 := hcmin y (h1 ▸ hy)
              omega
            · exact hbuck q h1 y hy

/-- The bucket fold produces a result whenever a bucket is nonempty. -/
theorem multi_fold_isSome {T : Type} [Preferable T] :
    ∀ (bs : List (String × AltIDContainer T)) (acc : Option T),
      ((∃ pb ∈ bs, pb.2.items ≠ []) ∨ acc.isSome) →
      (bs.foldl prefStep acc).isSome := by
  intro bs
  induction bs with
  | nil =>
    intro acc h
    rcases h with ⟨pb, hpb, _⟩ | h
    · simp at hpb
    · simpa using h
  | cons pb bs ih =>
    intro acc h
    rw [List.foldl_cons]
    match hb : pb.2.get_prefered_value with
    | none =>
      rw [prefStep_skip acc pb hb]
      apply ih
      rcases h with ⟨q, hq, hne⟩ | hs
      · rcases List.mem_cons.mp hq with h1 | h1
        · exact absurd (altid_get_prefered_none pb.2 hb) (h1 ▸ hne)
        · exact Or.inl ⟨q, h1, hne⟩
      · exact Or.inr hs
    | some cpi =>
      apply ih
      rcases acc with _ | pi
      · rw [prefStep_seed pb cpi hb]
        exact Or.inr rfl
      · rw [prefStep_cmp pb cpi pi hb]
        right
        by_cases hcmp : get_pref pi > get_pref cpi
        · rw [if_pos hcmp]; rfl
        · rw [if_neg hcmp]; rfl

/-- Members of an updated bucket list either are the replacement or were
already there. -/
theorem mem_updateBuckets {T : Type} {k : String} {c : AltIDContainer T} :
    ∀ {l : List (String × AltIDContainer T)} {p : String × AltIDContainer T},
      p ∈ updateBuckets k c l → p = (k, c) ∨ p ∈ l := by
  intro l
  induction l with
  | nil =>
    intro p hp
    simp [updateBuckets] at hp
  | cons q l ih =>
    intro p hp
    rw [updateBuckets] at hp
    split at hp
    · rcases List.mem_cons.mp hp with h | h
      · exact Or.inl h
      · exact Or.inr (by simp [h])
    · rcases List.mem_cons.mp hp with h | h
      · exact Or.inr (by simp [h])
      · rcases ih h with h2 | h2
        · exact Or.inl h2
        · exact Or.inr (by simp [h2])

/-- Unfold of AltIDContainer::add_value on an empty container. -/
theorem add_value_nil {T : Type} [Alternative T] (c : AltIDContainer T) (x : T)
    (h : c.items = []) : c.add_value x = .ok ⟨[x]⟩ := by
  unfold AltIDContainer.add_value
  rw [h]

/-- Unfold of AltIDContainer::add_value when the alt-ids agree: append. -/
theorem add_value_cons_eq {T : Type} [Alternative T] (c : AltIDContainer T)
    (x first : T) (rest : List T) (h : c.items = first :: rest)
    (heq : get_alt_id first = get_alt_id x) :
    c.add_value x = .ok ⟨c.items ++ [x]⟩ := by
  unfold AltIDContainer.add_value
  rw [h]
  show (if get_alt_id first ≠ get_alt_id x then
      (Except.error (VCardError.invalidAltID (get_alt_id first)
        (get_alt_id x)) : Except VCardError (AltIDContainer T))
    else .ok ⟨(first :: rest) ++ [x]⟩) = _
  rw [if_neg (fun hne => hne heq)]

/-- Unfold of AltIDContainer::add_value on an alt-id mismatch. -/
theorem add_value_cons_ne {T : Type} [Alternative T] (c : AltIDContainer T)
    (x first : T) (rest : List T) (h : c.items = first :: rest)
    (hne : get_alt_id first ≠ get_alt_id x) :
    c.add_value x
      = .error (.invalidAltID (get_alt_id first) (get_alt_id x)) := by
  unfold AltIDContainer.add_value
  rw [h]
  show (if get_alt_id first ≠ get_alt_id x then
      (Except.error (VCardError.invalidAltID (get_alt_id first)
        (get_alt_id x)) : Except VCardError (AltIDContainer T))
    else .ok ⟨(first :: rest) ++ [x]⟩) = _
  rw [if_pos hne]

/-! ## Claims -/

/-- C2 (code_bug evidence): the dispatch arm for the CLIENTPIDMAP property is
keyed on the misspelled lowercased name clientidmap, so the logical line
CLIENTPIDMAP:1;urn:uuid:abc is rejected as an unknown non-proprietary name,
while the very same decoding logic (pid slot 1, mapped URI urn:uuid:abc, and
the missing-semicolon syntax error) sits behind the misspelled name
CLIENTIDMAP. -/
theorem clientpidmap_dispatch_misspelled :
    Property.from_str "CLIENTPIDMAP:1;urn:uuid:abc"
      = .error (.invalidName "CLIENTPIDMAP" "CLIENTPIDMAP:1;urn:uuid:abc")
    ∧ Property.from_str "CLIENTIDMAP:1;urn:uuid:abc"
      = .ok (.clientPidMap ⟨none, 1, "urn:uuid:abc"⟩)
    ∧ Property.from_str "CLIENTIDMAP:1"
      = .error (.invalidLine
          "expected clientpidmap value to have two parts separated by ';'" "1")
    ∧ Property.from_str "CLIENTPIDMAP:1"
      = .error (.invalidName "CLIENTPIDMAP" "CLIENTPIDMAP:1") := by
  refine ⟨?_, ?_, ?_, ?_⟩ <;> decide

/-- C4 (counterexample): decoding the NICKNAME value a,,b keeps the empty
middle item, so the decoded list does contain an empty string, contrary to
the claim. -/
theorem nickname_keeps_empty_items :
    Property.from_str "NICKNAME:a,,b"
      = .ok (.nickName ⟨none, none, none, none, none, none, none,
          ["a", "", "b"]⟩)
    ∧ "" ∈ (["a", "", "b"] : List String) :=
  ⟨by decide, by decide⟩

/-- C4 (amended): for every newline-free raw value, ORG splits on unescaped
semicolons and CATEGORIES on unescaped commas with empty sub-items dropped,
and the resulting lists contain no empty strings; NICKNAME splits on
unescaped commas but keeps empty items verbatim. -/
theorem org_categories_nickname_split (v : List Char) (hv : '\n' ∉ v) :
    (Property.from_str ⟨'O' :: 'R' :: 'G' :: ':' :: v⟩
      = .ok (.org ⟨none, none, none, none, none, none, none, none,
          ((escaped_split v ';').map (fun l => (⟨l⟩ : String))).filterMap
            filter_and_transform⟩))
    ∧ (Property.from_str
        ⟨'C' :: 'A' :: 'T' :: 'E' :: 'G' :: 'O' :: 'R' :: 'I' :: 'E' :: 'S'
          :: ':' :: v⟩
      = .ok (.categories ⟨none, none, none, none, none, none,
          ((escaped_split v ',').map (fun l => (⟨l⟩ : String))).filterMap
            filter_and_transform⟩))
    ∧ (Property.from_str
        ⟨'N' :: 'I' :: 'C' :: 'K' :: 'N' :: 'A' :: 'M' :: 'E' :: ':' :: v⟩
      = .ok (.nickName ⟨none, none, none, none, none, none, none,
          (escaped_split v ',').map (fun l => (⟨l⟩ : String))⟩))
    ∧ ("" ∉ ((escaped_split v ';').map (fun l => (⟨l⟩ : String))).filterMap
          filter_and_transform)
    ∧ ("" ∉ ((escaped_split v ',').map (fun l => (⟨l⟩ : String))).filterMap
          filter_and_transform) := by
  refine ⟨?_, ?_, ?_, ?_, ?_⟩
  · have hc := findCaptures_noparam ['O', 'R', 'G'] v
      (by decide) (by decide) (by decide) hv
    unfold Property.from_str
    rw [show (⟨'O' :: 'R' :: 'G' :: ':' :: v⟩ : String).data
      = ['O', 'R', 'G'] ++ ':' :: v from rfl]
    rw [hc]
    rfl
  · have hc := findCaptures_noparam
      ['C', 'A', 'T', 'E', 'G', 'O', 'R', 'I', 'E', 'S'] v
      (by decide) (by decide) (by decide) hv
    unfold Property.from_str
    rw [show (⟨'C' :: 'A' :: 'T' :: 'E' :: 'G' :: 'O' :: 'R' :: 'I' :: 'E'
        :: 'S' :: ':' :: v⟩ : String).data
      = ['C', 'A', 'T', 'E', 'G', 'O', 'R', 'I', 'E', 'S'] ++ ':' :: v from rfl]
    rw [hc]
    rfl
  · have hc := findCaptures_noparam ['N', 'I', 'C', 'K', 'N', 'A', 'M', 'E'] v
      (by decide) (by decide) (by decide) hv
    unfold Property.from_str
    rw [show (⟨'N' :: 'I' :: 'C' :: 'K' :: 'N' :: 'A' :: 'M' :: 'E' :: ':'
        :: v⟩ : String).data
      = ['N', 'I', 'C', 'K', 'N', 'A', 'M', 'E'] ++ ':' :: v from rfl]
    rw [hc]
    rfl
  · exact filter_and_transform_no_empty _
  · exact filter_and_transform_no_empty _

/-- C4 (witness): the amended statement evaluated on the raw value a,,b. -/
theorem org_categories_nickname_split_witness :
    ('\n' ∉ ['a', ',', ',', 'b'])
    ∧ ((Property.from_str ⟨'O' :: 'R' :: 'G' :: ':' :: ['a', ',', ',', 'b']⟩
      = .ok (.org ⟨none, none, none, none, none, none, none, none,
          ((escaped_split ['a', ',', ',', 'b'] ';').map
            (fun l => (⟨l⟩ : String))).filterMap filter_and_transform⟩))
    ∧ (Property.from_str
        ⟨'C' :: 'A' :: 'T' :: 'E' :: 'G' :: 'O' :: 'R' :: 'I' :: 'E' :: 'S'
          :: ':' :: ['a', ',', ',', 'b']⟩
      = .ok (.categories ⟨none, none, none, none, none, none,
          ((escaped_split ['a', ',', ',', 'b'] ',').map
            (fun l => (⟨l⟩ : String))).filterMap filter_and_transform⟩))
    ∧ (Property.from_str
        ⟨'N' :: 'I' :: 'C' :: 'K' :: 'N' :: 'A' :: 'M' :: 'E' :: ':'
          :: ['a', ',', ',', 'b']⟩
      = .ok (.nickName ⟨none, none, none, none, none, none, none,
          (escaped_split ['a', ',', ',', 'b'] ',').map
            (fun l => (⟨l⟩ : String))⟩))
    ∧ ("" ∉ ((escaped_split ['a', ',', ',', 'b'] ';').map
          (fun l => (⟨l⟩ : String))).filterMap filter_and_transform)
    ∧ ("" ∉ ((escaped_split ['a', ',', ',', 'b'] ',').map
          (fun l => (⟨l⟩ : String))).filterMap filter_and_transform)) :=
  ⟨by decide, org_categories_nickname_split ['a', ',', ',', 'b'] (by decide)⟩

/-- C9: GENDER splits once at the first semicolon into an optional sex token
(m, f, o, n, u case-insensitively; empty stays none; anything else is the
invalid-gender error) and a free-text identity component; a value with no
semicolon is the Gender syntax error; in particular GENDER:; decodes to no
sex and an empty identity and GENDER:m;trans decodes to male with identity
trans. -/
theorem gender_split_once (s t v : List Char)
    (hsemi : ';' ∉ s) (hns : '\n' ∉ s) (hnt : '\n' ∉ t)
    (hvsemi : ';' ∉ v) (hvn : '\n' ∉ v) :
    (Property.from_str
        ⟨'G' :: 'E' :: 'N' :: 'D' :: 'E' :: 'R' :: ':' :: (s ++ ';' :: t)⟩
      = if s = [] then .ok (.gender ⟨none, some ⟨t⟩⟩)
        else match Sex.from_str ⟨s⟩ with
          | .ok sx => .ok (.gender ⟨some sx, some ⟨t⟩⟩)
          | .error e => .error e)
    ∧ (Property.from_str ⟨'G' :: 'E' :: 'N' :: 'D' :: 'E' :: 'R' :: ':' :: v⟩
      = .error (.invalidSyntax "Gender"
          "gender property must include a semicolon (;)"))
    ∧ (∀ x : String, lowerStr x ∉ (["m", "f", "o", "n", "u"] : List String) →
        Sex.from_str x = .error (.invalidGenderError x))
    ∧ (Property.from_str "GENDER:;" = .ok (.gender ⟨none, some ""⟩))
    ∧ (Property.from_str "GENDER:m;trans"
      = .ok (.gender ⟨some .male, some "trans"⟩)) := by
  refine ⟨?_, ?_, ?_, by decide, by decide⟩
  · have hvmem : '\n' ∉ (s ++ ';' :: t) := by
      intro hmem
      rcases List.mem_append.mp hmem with h | h
      · exact hns h
      · rcases List.mem_cons.mp h with h | h
        · exact absurd h (by decide)
        · exact hnt h
    have hc := findCaptures_noparam ['G', 'E', 'N', 'D', 'E', 'R']
      (s ++ ';' :: t) (by decide) (by decide) (by decide) hvmem
    unfold Property.from_str
    rw [show (⟨'G' :: 'E' :: 'N' :: 'D' :: 'E' :: 'R' :: ':' :: (s ++ ';' :: t)⟩
        : String).data
      = ['G', 'E', 'N', 'D', 'E', 'R'] ++ ':' :: (s ++ ';' :: t) from rfl]
    rw [hc]
    show genderValue ⟨s ++ ';' :: t⟩ = _
    unfold genderValue
    rw [show (⟨s ++ ';' :: t⟩ : String).data = s ++ ';' :: t from rfl]
    rw [splitOnce_append s t hsemi]
    by_cases hse : s = []
    · subst hse
      rfl
    · simp only [if_neg hse]
      cases hsex : Sex.from_str (⟨s⟩ : String) <;> rfl
  · have hc := findCaptures_noparam ['G', 'E', 'N', 'D', 'E', 'R'] v
      (by decide) (by decide) (by decide) hvn
    unfold Property.from_str
    rw [show (⟨'G' :: 'E' :: 'N' :: 'D' :: 'E' :: 'R' :: ':' :: v⟩
        : String).data
      = ['G', 'E', 'N', 'D', 'E', 'R'] ++ ':' :: v from rfl]
    rw [hc]
    show genderValue ⟨v⟩ = _
    unfold genderValue
    rw [show (⟨v⟩ : String).data = v from rfl]
    rw [splitOnce_none v hvsemi]
  · intro x hx
    unfold Sex.from_str
    split
    · exact absurd (by simp [*]) hx
    · exact absurd (by simp [*]) hx
    · exact absurd (by simp [*]) hx
    · exact absurd (by simp [*]) hx
    · exact absurd (by simp [*]) hx
    · rfl

/-- C9 (witness): the statement evaluated with sex token m, identity trans,
and the separator-free value x. -/
theorem gender_split_once_witness :
    (';' ∉ ['m']) ∧ ('\n' ∉ ['m']) ∧ ('\n' ∉ ['t', 'r', 'a', 'n', 's'])
    ∧ (';' ∉ ['x']) ∧ ('\n' ∉ ['x'])
    ∧ ((Property.from_str
        ⟨'G' :: 'E' :: 'N' :: 'D' :: 'E' :: 'R' :: ':'
          :: (['m'] ++ ';' :: ['t', 'r', 'a', 'n', 's'])⟩
      = if ['m'] = ([] : List Char)
        then .ok (.gender ⟨none, some ⟨['t', 'r', 'a', 'n', 's']⟩⟩)
        else match Sex.from_str ⟨['m']⟩ with
          | .ok sx => .ok (.gender ⟨some sx, some ⟨['t', 'r', 'a', 'n', 's']⟩⟩)
          | .error e => .error e)
    ∧ (Property.from_str
        ⟨'G' :: 'E' :: 'N' :: 'D' :: 'E' :: 'R' :: ':' :: ['x']⟩
      = .error (.invalidSyntax "Gender"
          "gender property must include a semicolon (;)"))
    ∧ (∀ x : String, lowerStr x ∉ (["m", "f", "o", "n", "u"] : List String) →
        Sex.from_str x = .error (.invalidGenderError x))
    ∧ (Property.from_str "GENDER:;" = .ok (.gender ⟨none, some ""⟩))
    ∧ (Property.from_str "GENDER:m;trans"
      = .ok (.gender ⟨some .male, some "trans"⟩))) :=
  ⟨by decide, by decide, by decide, by decide, by decide,
    gender_split_once ['m'] ['t', 'r', 'a', 'n', 's'] ['x']
      (by decide) (by decide) (by decide) (by decide) (by decide)⟩

/-- The key invariant of MultiAltIDContainer: every member of a bucket has
the bucket key as its alt-id.  Every container built through the public
constructors and add_value satisfies it. -/
def MultiWellKeyed {T : Type} [Alternative T] (m : MultiAltIDContainer T) : Prop :=
  ∀ p ∈ m.buckets, ∀ x ∈ p.2.items, get_alt_id x = p.1

instance {T : Type} [Alternative T] [DecidableEq T] (m : MultiAltIDContainer T) :
    Decidable (MultiWellKeyed m) := by
  unfold MultiWellKeyed
  infer_instance

/-- C8: AltIDContainer::add_value accepts anything into an empty container;
into a nonempty container it appends at the end exactly when the incoming
alt-id equals the first member alt-id (toward which an absent alt-id counts
as the empty string, so two absent alt-ids agree), and otherwise fails with
the alt-id mismatch error naming the expected and the actual alt-id. -/
theorem altid_add_value_spec :
    (∀ (T : Type) [inst : Alternative T] (c : AltIDContainer T) (x : T),
      c.items = [] → c.add_value x = .ok ⟨[x]⟩)
    ∧ (∀ (T : Type) [inst : Alternative T] (c : AltIDContainer T) (x first : T)
        (rest : List T), c.items = first :: rest →
        (get_alt_id first = get_alt_id x →
          c.add_value x = .ok ⟨c.items ++ [x]⟩)
        ∧ (get_alt_id first ≠ get_alt_id x →
          c.add_value x
            = .error (.invalidAltID (get_alt_id first) (get_alt_id x))))
    ∧ (((AltIDContainer.new FN).add_value { value := "a" }).bind
          (fun c => c.add_value { value := "b" })
        = .ok ⟨[{ value := "a" }, { value := "b" }]⟩) := by
  exact ⟨fun T inst c x h => add_value_nil c x h,
    fun T inst c x first rest h =>
      ⟨fun heq => add_value_cons_eq c x first rest h heq,
       fun hne => add_value_cons_ne c x first rest h hne⟩,
    by decide⟩

/-- C8 (witness): adding a matching and a mismatching item to the singleton
container holding an item with alt-id 1. -/
theorem altid_add_value_spec_witness :
    ((AltIDContainer.from_vec [({ altid := some "1", value := "a" } : FN)]).add_value
        { altid := some "1", value := "b" }
      = .ok ⟨[{ altid := some "1", value := "a" },
              { altid := some "1", value := "b" }]⟩)
    ∧ ((AltIDContainer.from_vec [({ altid := some "1", value := "a" } : FN)]).add_value
        { altid := some "2", value := "c" }
      = .error (.invalidAltID "1" "2")) :=
  ⟨(altid_add_value_spec.2.1 FN
      (AltIDContainer.from_vec [({ altid := some "1", value := "a" } : FN)])
      { altid := some "1", value := "b" }
      { altid := some "1", value := "a" } [] rfl).1 (by decide),
   (altid_add_value_spec.2.1 FN
      (AltIDContainer.from_vec [({ altid := some "1", value := "a" } : FN)])
      { altid := some "2", value := "c" }
      { altid := some "1", value := "a" } [] rfl).2 (by decide)⟩

/-- C5: on a nonempty AltIDContainer, and on a MultiAltIDContainer with some
nonempty bucket, get_prefered_value returns a member of minimal preference
rank, an absent rank counting as 100; in particular among members with PREF
10, PREF 50 and no PREF the PREF 10 member is returned. -/
theorem get_prefered_minimal :
    (∀ (T : Type) [inst : Preferable T] (c : AltIDContainer T), c.items ≠ [] →
      ∃ m, c.get_prefered_value = some m ∧ m ∈ c.items ∧
        ∀ y ∈ c.items, get_pref m ≤ get_pref y)
    ∧ (∀ (T : Type) [inst : Preferable T] (mc : MultiAltIDContainer T),
        (∃ pb ∈ mc.buckets, pb.2.items ≠ []) →
        ∃ m, mc.get_prefered_value = some m ∧ m ∈ mc.allItems ∧
          ∀ y ∈ mc.allItems, get_pref m ≤ get_pref y)
    ∧ (∀ f : FN, f.pref = none → get_pref f = 100)
    ∧ ((AltIDContainer.from_vec
        [({ value := "a", pref := some 10 } : FN),
         { value := "b", pref := some 50 },
         { value := "c" }]).get_prefered_value
      = some { value := "a", pref := some 10 })
    ∧ ((⟨[("", AltIDContainer.from_vec
        [({ value := "a", pref := some 10 } : FN),
         { value := "b", pref := some 50 },
         { value := "c" }])]⟩ : MultiAltIDContainer FN).get_prefered_value
      = some { value := "a", pref := some 10 }) := by
  refine ⟨?_, ?_, ?_, by decide, by decide⟩
  · intro T inst c h
    exact altid_get_prefered_spec c h
  · intro T inst mc h
    have hsome := multi_fold_isSome mc.buckets none (Or.inl h)
    match hr : mc.buckets.foldl prefStep none with
    | none => rw [hr] at hsome; cases hsome
    | some r =>
      obtain ⟨hmem, _, hbuck⟩ := multi_fold_spec mc.buckets none r hr
      refine ⟨r, hr, ?_, ?_⟩
      · rcases hmem with h1 | ⟨q, hq, hrq⟩
        · cases h1
        · unfold MultiAltIDContainer.allItems
          rw [List.mem_flatten]
          exact ⟨q.2.items, List.mem_map.mpr ⟨q, hq, rfl⟩, hrq⟩
      · intro y hy
        unfold MultiAltIDContainer.allItems at hy
        rw [List.mem_flatten] at hy
        obtain ⟨li, hli, hyli⟩ := hy
        obtain ⟨q, hq, rfl⟩ := List.mem_map.mp hli
        exact hbuck q hq y hyli
  · intro f h
    show f.pref.getD 100 = 100
    rw [h]
    rfl

/-- C5 (witness): the containers holding FN members with PREF 10, PREF 50
and absent PREF. -/
theorem get_prefered_minimal_witness :
    (([({ value := "a", pref := some 10 } : FN),
       { value := "b", pref := some 50 }, { value := "c" }]
      ≠ ([] : List FN))
    ∧ ∃ m, (AltIDContainer.from_vec
        [({ value := "a", pref := some 10 } : FN),
         { value := "b", pref := some 50 },
         { value := "c" }]).get_prefered_value = some m ∧
        m ∈ [({ value := "a", pref := some 10 } : FN),
         { value := "b", pref := some 50 }, { value := "c" }] ∧
        ∀ y ∈ [({ value := "a", pref := some 10 } : FN),
         { value := "b", pref := some 50 }, { value := "c" }],
          get_pref m ≤ get_pref y) :=
  ⟨by decide,
    get_prefered_minimal.1 FN
      (AltIDContainer.from_vec
        [({ value := "a", pref := some 10 } : FN),
         { value := "b", pref := some 50 }, { value := "c" }])
      (by decide)⟩

/-- C10: MultiAltIDContainer::add_value routes each item to the bucket keyed
by the item own alt-id, so on every container satisfying the bucket-key
invariant (which the empty container satisfies and add_value preserves) the
delegated AltIDContainer::add_value can never report a mismatch: the abort
branch of the expect call is unreachable. -/
theorem multi_add_value_total :
    (∀ (T : Type) [inst : Alternative T],
      MultiWellKeyed (MultiAltIDContainer.new T))
    ∧ (∀ (T : Type) [inst : Alternative T] (m : MultiAltIDContainer T) (v : T),
        MultiWellKeyed m →
        ∃ m', m.add_value v = some m' ∧ MultiWellKeyed m') := by
  constructor
  · intro T inst p hp
    exact absurd hp (List.not_mem_nil p)
  · intro T inst m v hInv
    unfold MultiAltIDContainer.add_value
    match hl : m.lookup (get_alt_id v) with
    | none =>
      refine ⟨_, rfl, ?_⟩
      intro p hp x hx
      rcases List.mem_append.mp hp with h1 | h1
      · exact hInv p h1 x hx
      · rcases List.mem_cons.mp h1 with h2 | h2
        · subst h2
          simp only [AltIDContainer.from_vec] at hx
          rcases List.mem_singleton.mp hx with rfl
          rfl
        · simp at h2
    | some container =>
      unfold MultiAltIDContainer.lookup at hl
      match hf : m.buckets.find? (fun p => p.1 = get_alt_id v) with
      | none => rw [hf] at hl; cases hl
      | some entry =>
        rw [hf] at hl
        simp only [Option.map, Option.some.injEq] at hl
        have hkey : entry.1 = get_alt_id v := by
          have := List.find?_some hf
          simpa using this
        have hment : entry ∈ m.buckets := List.mem_of_find?_eq_some hf
        have hItems : ∀ x ∈ container.items, get_alt_id x = get_alt_id v := by
          intro x hx
          rw [← hkey]
          exact hInv entry hment x (by rw [hl]; exact hx)
        have hadd : ∃ c', container.add_value v = .ok c' ∧
            ∀ x ∈ c'.items, get_alt_id x = get_alt_id v := by
          match hi : container.items with
          | [] =>
            refine ⟨⟨[v]⟩, add_value_nil container v hi, ?_⟩
            intro x hx
            rcases List.mem_singleton.mp hx with rfl
            rfl
          | first :: rest =>
            have hfirst : get_alt_id first = get_alt_id v :=
              hItems first (by rw [hi]; simp)
            refine ⟨⟨container.items ++ [v]⟩,
              add_value_cons_eq container v first rest hi hfirst, ?_⟩
            intro x hx
            rcases List.mem_append.mp hx with h1 | h1
            · exact hItems x h1
            · rcases List.mem_singleton.mp h1 with rfl
              rfl
        obtain ⟨c', hc', hc'keys⟩ := hadd
        show ∃ m', (match container.add_value v with
          | .ok c' =>
            some (⟨updateBuckets (get_alt_id v) c' m.buckets⟩ :
              MultiAltIDContainer T)
          | .error _ => none) = some m' ∧ MultiWellKeyed m'
        rw [hc']
        refine ⟨_, rfl, ?_⟩
        intro p hp x hx
        rcases mem_updateBuckets hp with h1 | h1
        · subst h1
          exact hc'keys x hx
        · exact hInv p h1 x hx

/-- C10 (witness): adding a second item with alt-id 1 to a container already
holding a bucket keyed 1. -/
theorem multi_add_value_total_witness :
    MultiWellKeyed (⟨[("1", AltIDContainer.from_vec
        [({ altid := some "1", value := "a" } : FN)])]⟩ : MultiAltIDContainer FN)
    ∧ ∃ m', (⟨[("1", AltIDContainer.from_vec
        [({ altid := some "1", value := "a" } : FN)])]⟩ :
          MultiAltIDContainer FN).add_value
        { altid := some "1", value := "b" } = some m' ∧ MultiWellKeyed m' :=
  ⟨by decide,
    multi_add_value_total.2 FN
      (⟨[("1", AltIDContainer.from_vec
        [({ altid := some "1", value := "a" } : FN)])]⟩ : MultiAltIDContainer FN)
      { altid := some "1", value := "b" } (by decide)⟩

/-- C6: buffering a logical line fails with the length-exceeded error exactly
when the buffered content outgrows the limit: a clean CRLF-terminated line of
content length at most the limit is returned whole, one byte more trips the
guard, and nothing else of the line is returned. -/
theorem max_line_length_threshold (maxLen : Nat) (s tail d : List Char)
    (hs : '\r' ∉ s) :
    (read_logical_line maxLen ⟨s ++ ['\r', '\n'], d⟩
      = if s.length ≤ maxLen then .ok ((⟨s⟩, false), ⟨[], d⟩)
        else .error (.maxLineLengthExceeded maxLen))
    ∧ (s.length > maxLen →
      read_logical_line maxLen ⟨s ++ '\r' :: '\n' :: tail, d⟩
        = .error (.maxLineLengthExceeded maxLen)) := by
  constructor
  · by_cases hlen : s.length ≤ maxLen
    · rw [if_pos hlen]
      exact read_logical_line_final maxLen s d hs hlen
    · rw [if_neg hlen]
      rw [read_logical_line]
      simp only []
      rw [show (s ++ ['\r', '\n'] : List Char) = s ++ '\r' :: '\n' :: [] from rfl]
      rw [read_physical_line_clean maxLen s [] []
        (fun c hc hq => hs (hq ▸ hc))]
      rw [if_neg (by simp only [List.length_nil, Nat.zero_add]; omega)]
  · intro hgt
    rw [read_logical_line]
    simp only []
    rw [read_physical_line_clean maxLen s [] tail
      (fun c hc hq => hs (hq ▸ hc))]
    rw [if_neg (by simp only [List.length_nil, Nat.zero_add]; omega)]

/-- C6 (witness): with the limit 3, the three-byte line FN: is returned and
the four-byte line FN:a trips the guard. -/
theorem max_line_length_threshold_witness :
    ('\r' ∉ ['F', 'N', ':'])
    ∧ (read_logical_line 3 ⟨['F', 'N', ':'] ++ ['\r', '\n'], []⟩
      = if (['F', 'N', ':'] : List Char).length ≤ 3
        then .ok ((⟨['F', 'N', ':']⟩, false), ⟨[], []⟩)
        else .error (.maxLineLengthExceeded 3))
    ∧ (read_logical_line 3 ⟨['F', 'N', ':', 'a'] ++ '\r' :: '\n' :: [], []⟩
      = .error (.maxLineLengthExceeded 3)) :=
  ⟨by decide,
   (max_line_length_threshold 3 ['F', 'N', ':'] [] [] (by decide)).1,
   (max_line_length_threshold 3 ['F', 'N', ':', 'a'] [] [] (by decide)).2
     (by decide)⟩

/-- C7: when the stream ends with no trailing CRLF while the first physical
line of a logical line is being read (and the length guard does not trip
first), the read succeeds exactly when the buffered content is END:VCARD,
with the more flag cleared; any other content surfaces the unexpected
end-of-stream I/O error. -/
theorem eof_tolerated_only_for_end (maxLen : Nat) (s d : List Char)
    (hs : '\r' ∉ s) (hlen : s.length ≤ maxLen) :
    read_logical_line maxLen ⟨s, d⟩
      = if s = "END:VCARD".data
        then .ok (("END:VCARD", false), ⟨[], d⟩)
        else .error .ioUnexpectedEof := by
  rw [read_logical_line]
  simp only []
  rw [read_physical_line_eof maxLen s [] (fun c hc hq => hs (hq ▸ hc))]
  rw [if_pos (by simp only [List.length_nil, Nat.zero_add]; omega)]
  rw [show ([] ++ s : List Char) = s from by simp]
  show (if s = "END:VCARD".data then logicalLoop maxLen s [] d
    else Except.error VCardError.ioUnexpectedEof) = _
  by_cases hend : s = "END:VCARD".data
  · rw [if_pos hend, if_pos hend]
    rw [logicalLoop_noMore maxLen s [] d [] rfl]
    subst hend
    rfl
  · rw [if_neg hend, if_neg hend]

/-- C7 (witness): the tolerated END:VCARD final line and a rejected
END:VCARX final line, both without trailing CRLF. -/
theorem eof_tolerated_only_for_end_witness :
    ('\r' ∉ "END:VCARD".data) ∧ ("END:VCARD".data.length ≤ 5000)
    ∧ (read_logical_line 5000 ⟨"END:VCARD".data, []⟩
      = if "END:VCARD".data = "END:VCARD".data
        then .ok (("END:VCARD", false), ⟨[], []⟩)
        else .error .ioUnexpectedEof)
    ∧ (read_logical_line 5000 ⟨"END:VCARX".data, []⟩
      = if "END:VCARX".data = "END:VCARD".data
        then .ok (("END:VCARD", false), ⟨[], []⟩)
        else .error .ioUnexpectedEof) :=
  ⟨by decide, by decide,
   eof_tolerated_only_for_end 5000 "END:VCARD".data [] (by decide) (by decide),
   eof_tolerated_only_for_end 5000 "END:VCARX".data [] (by decide) (by decide)⟩


/-- C3 (counterexample): folding is not invariant at arbitrary positions. A
fold inserted just before a space leaves a continuation that starts with a
fold character, so the reader discards the whole following physical line:
the folded stream "FN:a" CRLF SP SP "b" CRLF decodes to FN "a" while the
unfolded line "FN:a b" CRLF decodes to FN "a b". -/
theorem folding_discard_counterexample :
    read_property 5000 (readerOf "FN:a\r\n  b\r\n")
        = .ok ((.fn_prop ⟨none, none, none, none, none, none, "a"⟩, false),
            ⟨[], [' ', ' ', 'b']⟩)
    ∧ read_property 5000 (readerOf "FN:a b\r\n")
        = .ok ((.fn_prop ⟨none, none, none, none, none, none, "a b"⟩, false),
            ⟨[], []⟩)
    ∧ Property.fn_prop ⟨none, none, none, none, none, none, "a"⟩
        ≠ Property.fn_prop ⟨none, none, none, none, none, none, "a b"⟩ := by
  refine ⟨?_, ?_, by decide⟩
  · rw [show readerOf "FN:a\r\n  b\r\n"
        = ⟨['F', 'N', ':', 'a'] ++ '\r' :: '\n' :: [' ', ' ', 'b', '\r', '\n'], []⟩
        from rfl]
    have hp : read_physical_line 5000 []
        (['F', 'N', ':', 'a'] ++ '\r' :: '\n' :: [' ', ' ', 'b', '\r', '\n'])
        = .okLine ['F', 'N', ':', 'a'] [' ', ' ', 'b', '\r', '\n'] := by
      rw [read_physical_line_clean 5000 ['F', 'N', ':', 'a'] []
        [' ', ' ', 'b', '\r', '\n'] (by decide)]
      rw [if_pos (by decide)]
      rfl
    have hd : read_physical_line 5000 [] [' ', ' ', 'b', '\r', '\n']
        = .okLine [' ', ' ', 'b'] [] := by
      rw [show ([' ', ' ', 'b', '\r', '\n'] : List Char)
            = [' ', ' ', 'b'] ++ '\r' :: '\n' :: [] from rfl]
      rw [read_physical_line_clean 5000 [' ', ' ', 'b'] [] [] (by decide)]
      rw [if_pos (by decide)]
      rfl
    have h1 : read_logical_line 5000
        ⟨['F', 'N', ':', 'a'] ++ '\r' :: '\n' :: [' ', ' ', 'b', '\r', '\n'], []⟩
        = .ok ((⟨['F', 'N', ':', 'a']⟩, false), ⟨[], [' ', ' ', 'b']⟩) := by
      rw [read_logical_line]
      simp only []
      rw [hp]
      show logicalLoop 5000 ['F', 'N', ':', 'a'] [' ', ' ', 'b', '\r', '\n'] [] = _
      rw [logicalLoop_discard_ok 5000 ['F', 'N', ':', 'a'] [' ', ' ', 'b', '\r', '\n']
        [] [' ', ' ', 'b', '\r', '\n'] [' ', ' ', 'b'] [] rfl hd]
      exact logicalLoop_noMore 5000 ['F', 'N', ':', 'a'] [] [' ', ' ', 'b'] [] rfl
    rw [read_property, h1]
    simp only [Except.bind]
    rw [show Property.from_str ⟨['F', 'N', ':', 'a']⟩
        = .ok (.fn_prop ⟨none, none, none, none, none, none, "a"⟩) from by decide]
    rfl
  · rw [show readerOf "FN:a b\r\n"
        = ⟨['F', 'N', ':', 'a', ' ', 'b'] ++ ['\r', '\n'], []⟩ from rfl]
    rw [read_property_final 5000 ['F', 'N', ':', 'a', ' ', 'b'] []
      (by decide) (by decide)]
    rw [show Property.from_str ⟨['F', 'N', ':', 'a', ' ', 'b']⟩
        = .ok (.fn_prop ⟨none, none, none, none, none, none, "a b"⟩) from by decide]
    rfl

/-- C3 (amended): the folding invariant holds for fold points where every
continuation is nonempty, CR-free and does not begin with a space, tab, CR
or LF: reading the folded stream yields exactly what reading the unfolded
logical line yields, the length guard included. A continuation that begins
with a fold character, CR or LF is instead discarded, as the counterexample
shows. -/
theorem folding_preserves_property (maxLen : Nat) (s0 : List Char)
    (conts : List (Char × List Char)) (tail dbuf : List Char)
    (hs0 : '\r' ∉ s0) (hc : ∀ p ∈ conts, GoodCont p) :
    read_property maxLen ⟨s0 ++ '\r' :: '\n' :: foldedTail conts tail, dbuf⟩
      = read_property maxLen
          ⟨(s0 ++ (conts.map Prod.snd).flatten) ++ '\r' :: '\n' :: tail, dbuf⟩ := by
  have hflat : '\r' ∉ (conts.map Prod.snd).flatten := by
    intro hmem
    obtain ⟨li, hli, hmem2⟩ := List.mem_flatten.mp hmem
    obtain ⟨q, hq, rfl⟩ := List.mem_map.mp hli
    exact (hc q hq).2.2.1 hmem2
  suffices hL : read_logical_line maxLen
      ⟨s0 ++ '\r' :: '\n' :: foldedTail conts tail, dbuf⟩
      = read_logical_line maxLen
          ⟨(s0 ++ (conts.map Prod.snd).flatten) ++ '\r' :: '\n' :: tail, dbuf⟩ by
    rw [read_property, read_property, hL]
  rw [read_logical_line, read_logical_line]
  simp only []
  rw [read_physical_line_clean maxLen s0 [] (foldedTail conts tail)
    (fun c hcm hq => hs0 (hq ▸ hcm))]
  rw [read_physical_line_clean maxLen (s0 ++ (conts.map Prod.snd).flatten) [] tail
    (fun c hcm hq => by
      rcases List.mem_append.mp hcm with h | h
      · exact hs0 (hq ▸ h)
      · exact hflat (hq ▸ h))]
  simp only [List.length_nil, Nat.zero_add, List.length_append]
  by_cases h0 : s0.length ≤ maxLen
  · rw [if_pos h0]
    show logicalLoop maxLen s0 (foldedTail conts tail) dbuf = _
    rw [logicalLoop_folded maxLen conts s0 tail dbuf h0 hc]
    by_cases hF : s0.length + ((conts.map Prod.snd).flatten).length ≤ maxLen
    · rw [if_pos hF, if_pos hF]
      rfl
    · rw [if_neg hF, if_neg hF]
  · have hF : ¬(s0.length + ((conts.map Prod.snd).flatten).length ≤ maxLen) := by
      omega
    rw [if_neg h0, if_neg hF]

/-- Witness: the amended folding invariant at one concrete well-formed fold
of the line "FN:Hello". -/
theorem folding_preserves_property_witness :
    ('\r' ∉ "FN:He".data ∧ ∀ p ∈ [((' ' : Char), "llo".data)], GoodCont p)
    ∧ read_property 5000
        ⟨"FN:He".data ++ '\r' :: '\n' :: foldedTail [((' ' : Char), "llo".data)] [], []⟩
      = read_property 5000
        ⟨("FN:He".data ++ (([((' ' : Char), "llo".data)].map Prod.snd).flatten))
            ++ '\r' :: '\n' :: [], []⟩ :=
  ⟨⟨by decide, by decide⟩,
   folding_preserves_property 5000 "FN:He".data [((' ' : Char), "llo".data)] [] []
     (by decide) (by decide)⟩


/-- parse_vcard over a four-line stream BEGIN:VCARD, VERSION:4.0, one ORG
line and END:VCARD assembles exactly the default aggregate carrying version 4
and that single Org entry in one bucket under its (empty) alt-id. -/
theorem parse_vcard_org_line (line : List Char) (o : Org)
    (hcr : '\r' ∉ line) (hlen : line.length ≤ 5000)
    (hfs : Property.from_str ⟨line⟩ = .ok (.org o))
    (halt : get_alt_id o = "")
    (hinsp : inspect_next_line
        (line ++ '\r' :: '\n' :: ("END:VCARD".data ++ ['\r', '\n']))
      = (.newProperty,
          line ++ '\r' :: '\n' :: ("END:VCARD".data ++ ['\r', '\n']))) :
    parse_vcard 5000
        ⟨"BEGIN:VCARD".data ++ '\r' :: '\n'
          :: ("VERSION:4.0".data ++ '\r' :: '\n'
          :: (line ++ '\r' :: '\n' :: ("END:VCARD".data ++ ['\r', '\n']))), []⟩
      = .ok { version := ⟨.v4⟩, org := ⟨[("", ⟨[o]⟩)]⟩ } := by
  have h1 : read_property 5000
      ⟨"BEGIN:VCARD".data ++ '\r' :: '\n'
        :: ("VERSION:4.0".data ++ '\r' :: '\n'
        :: (line ++ '\r' :: '\n' :: ("END:VCARD".data ++ ['\r', '\n']))), []⟩
      = .ok ((.begin_prop "VCARD", true),
          ⟨"VERSION:4.0".data ++ '\r' :: '\n'
            :: (line ++ '\r' :: '\n' :: ("END:VCARD".data ++ ['\r', '\n'])), []⟩) := by
    rw [read_property_simple 5000 "BEGIN:VCARD".data
      ("VERSION:4.0".data ++ '\r' :: '\n'
        :: (line ++ '\r' :: '\n' :: ("END:VCARD".data ++ ['\r', '\n']))) []
      (by decide) (by decide) rfl]
    rw [show Property.from_str ⟨"BEGIN:VCARD".data⟩
        = .ok (.begin_prop "VCARD") from by decide]
    rfl
  have h2 : read_property 5000
      ⟨"VERSION:4.0".data ++ '\r' :: '\n'
        :: (line ++ '\r' :: '\n' :: ("END:VCARD".data ++ ['\r', '\n'])), []⟩
      = .ok ((.version ⟨.v4⟩, true),
          ⟨line ++ '\r' :: '\n' :: ("END:VCARD".data ++ ['\r', '\n']), []⟩) := by
    rw [read_property_simple 5000 "VERSION:4.0".data
      (line ++ '\r' :: '\n' :: ("END:VCARD".data ++ ['\r', '\n'])) []
      (by decide) (by decide) hinsp]
    rw [show Property.from_str ⟨"VERSION:4.0".data⟩
        = .ok (.version ⟨.v4⟩) from by decide]
    rfl
  have h3 : read_property 5000
      ⟨line ++ '\r' :: '\n' :: ("END:VCARD".data ++ ['\r', '\n']), []⟩
      = .ok ((.org o, true), ⟨"END:VCARD".data ++ ['\r', '\n'], []⟩) := by
    rw [read_property_simple 5000 line ("END:VCARD".data ++ ['\r', '\n']) []
      hcr hlen rfl]
    rw [hfs]
    rfl
  have h4 : read_property 5000 ⟨"END:VCARD".data ++ ['\r', '\n'], []⟩
      = .ok ((.end_prop "VCARD", false), ⟨[], []⟩) := by
    rw [read_property_final 5000 "END:VCARD".data [] (by decide) (by decide)]
    rw [show Property.from_str ⟨"END:VCARD".data⟩
        = .ok (.end_prop "VCARD") from by decide]
    rfl
  rw [parse_vcard, h1]
  simp only [Except.bind]
  show (read_property 5000
      ⟨"VERSION:4.0".data ++ '\r' :: '\n'
        :: (line ++ '\r' :: '\n' :: ("END:VCARD".data ++ ['\r', '\n'])), []⟩).bind
      (fun y => match y.1.1 with
        | .version v =>
          if !y.1.2 then .error .invalidEndProperty
          else parse_vcard_go 5000 { version := v } y.2
        | _ => .error .invalidVersionProperty) = _
  rw [h2]
  simp only [Except.bind]
  show parse_vcard_go 5000 { version := ⟨.v4⟩ }
      ⟨line ++ '\r' :: '\n' :: ("END:VCARD".data ++ ['\r', '\n']), []⟩ = _
  rw [parse_vcard_go_step 5000 { version := ⟨.v4⟩ }
    ⟨line ++ '\r' :: '\n' :: ("END:VCARD".data ++ ['\r', '\n']), []⟩
    ((.org o, true), ⟨"END:VCARD".data ++ ['\r', '\n'], []⟩) h3]
  have hstep : vcardStep { version := ⟨.v4⟩ } (.org o) true
      = .ok (.inr { version := ⟨.v4⟩, org := ⟨[("", ⟨[o]⟩)]⟩ }) := by
    have h0 : vcardStep { version := ⟨.v4⟩ } (.org o) true = .ok (.inr { version := ⟨.v4⟩, org := ⟨[(get_alt_id o, ⟨[o]⟩)]⟩ }) := rfl
    rw [h0, halt]
  rw [hstep]
  show parse_vcard_go 5000 { version := ⟨.v4⟩, org := ⟨[("", ⟨[o]⟩)]⟩ }
      ⟨"END:VCARD".data ++ ['\r', '\n'], []⟩ = _
  rw [parse_vcard_go_step 5000 { version := ⟨.v4⟩, org := ⟨[("", ⟨[o]⟩)]⟩ }
    ⟨"END:VCARD".data ++ ['\r', '\n'], []⟩
    ((.end_prop "VCARD", false), ⟨[], []⟩) h4]
  rfl

/-- C1: the round-trip fails because the serializer is lossy. The stream
whose third line is ORG:a\\;b (an escaped semicolon, one organizational unit
"a;b") decodes successfully; serializing the result writes the semicolon
back unescaped, as ORG:a;b, and decoding that serialization yields a card
whose single ORG entry holds the two units "a" and "b". Both cards keep one
bucket under the same empty alt-id key, so no bucket iteration order makes
them equal, and the decoded cards differ. -/
theorem round_trip_fails :
    ∃ v v2 : VCard,
      parse_vcard 5000
          (readerOf "BEGIN:VCARD\r\nVERSION:4.0\r\nORG:a\\;b\r\nEND:VCARD\r\n")
        = .ok v
      ∧ VCard.display v
        = "BEGIN:VCARD\r\nVERSION:4.0\r\nORG:a;b\r\nEND:VCARD\r\n"
      ∧ parse_vcard 5000 (readerOf (VCard.display v)) = .ok v2
      ∧ v.org.buckets.map Prod.fst = [""]
      ∧ v2.org.buckets.map Prod.fst = [""]
      ∧ v.org.buckets.map (fun p => p.2.items.map Org.value) = [[["a;b"]]]
      ∧ v2.org.buckets.map (fun p => p.2.items.map Org.value) = [[["a", "b"]]]
      ∧ v ≠ v2 := by
  refine ⟨{ version := ⟨.v4⟩,
            org := ⟨[("",
              ⟨[⟨none, none, none, none, none, none, none, none, ["a;b"]⟩]⟩)]⟩ },
          { version := ⟨.v4⟩,
            org := ⟨[("",
              ⟨[⟨none, none, none, none, none, none, none, none, ["a", "b"]⟩]⟩)]⟩ },
          ?_, by decide, ?_, by decide, by decide, by decide, by decide, by decide⟩
  · rw [show readerOf "BEGIN:VCARD\r\nVERSION:4.0\r\nORG:a\\;b\r\nEND:VCARD\r\n"
        = ⟨"BEGIN:VCARD".data ++ '\r' :: '\n'
            :: ("VERSION:4.0".data ++ '\r' :: '\n'
            :: ("ORG:a\\;b".data ++ '\r' :: '\n'
            :: ("END:VCARD".data ++ ['\r', '\n']))), []⟩ from rfl]
    exact parse_vcard_org_line "ORG:a\\;b".data
      ⟨none, none, none, none, none, none, none, none, ["a;b"]⟩
      (by decide) (by decide) (by decide) rfl rfl
  · rw [show VCard.display
        { version := ⟨.v4⟩,
          org := ⟨[("",
            ⟨[(⟨none, none, none, none, none, none, none, none,
              ["a;b"]⟩ : Org)]⟩)]⟩ }
        = "BEGIN:VCARD\r\nVERSION:4.0\r\nORG:a;b\r\nEND:VCARD\r\n" from by decide]
    rw [show readerOf "BEGIN:VCARD\r\nVERSION:4.0\r\nORG:a;b\r\nEND:VCARD\r\n"
        = ⟨"BEGIN:VCARD".data ++ '\r' :: '\n'
            :: ("VERSION:4.0".data ++ '\r' :: '\n'
            :: ("ORG:a;b".data ++ '\r' :: '\n'
            :: ("END:VCARD".data ++ ['\r', '\n']))), []⟩ from rfl]
    exact parse_vcard_org_line "ORG:a;b".data
      ⟨none, none, none, none, none, none, none, none, ["a", "b"]⟩
      (by decide) (by decide) (by decide) rfl rfl

end VC
